import Mathlib

/-!
# opnsense-auto-dns: reconciliation of Unbound host overrides

A shallow embedding of `cmd/auto-updater.go` and `internal/api/opnsense/unbound.go`.

* Go strings are sequences of Unicode code points (Lean `String`).
* HTTP bodies are represented by their JSON syntax tree (`Json`); bytes that are not
  valid JSON are `none`.  Decoding into the structs of `types.go` follows `encoding/json`:
  exact field names win over case-insensitive ones, `null` leaves a field as it is, a value of
  the wrong kind is an error.
* `strings.EqualFold` is modelled rune by rune; the Unicode fold tables it consults outside
  ASCII are a parameter (`CaseTable`).
* `makeAPIRequest` hands the URL `https://<host><endpoint>` to the HTTP client, which parses
  it before sending (`requestTarget`): an invalid URL sends nothing, a fragment is not sent,
  and the server sees the request target of the parsed URL.  The configured host is taken to
  be well formed.
* The remote is a deterministic state machine (`World`): every request is answered from the
  current remote state and may change it.  Each operation returns the value the Go function
  returns, the remote state it leaves behind and the requests it issued, in order.
* Log lines are not modelled, except that `Outcome` records which closing log line of
  `updateDNSForHostname` was reached.
-/

namespace OpnsenseAutoDns

/-! ## JSON values and the decoding done by `json.Unmarshal` -/

/-- JSON syntax trees; a number keeps its literal text. -/
inductive Json where
  | null
  | bool (b : Bool)
  | num (literal : String)
  | str (s : String)
  | arr (items : List Json)
  | obj (members : List (String × Json))

/-- Lookup of a member of a JSON object by its exact key (first occurrence). -/
def Json.member (j : Json) (key : String) : Option Json :=
  match j with
  | .obj members => (members.find? (fun kv => kv.1 == key)).map (fun kv => kv.2)
  | _ => none

/-- The Unicode case tables used by `strings.EqualFold`: `orbit lo hi` tells whether walking
`unicode.SimpleFold` from `lo` reaches `hi`; it is consulted only for `lo < hi` with `hi`
outside ASCII. -/
structure CaseTable where
  orbit : Char → Char → Bool

/-- One step of the loop of `strings.EqualFold`: are the runes `sr` and `tr` equal under
simple case folding. -/
def foldRuneEq (ct : CaseTable) (sr tr : Char) : Bool :=
  if tr = sr then true
  else
    let lo := if tr < sr then tr else sr
    let hi := if tr < sr then sr else tr
    if hi.toNat < 128 then
      decide (65 ≤ lo.toNat ∧ lo.toNat ≤ 90 ∧ hi.toNat = lo.toNat + 32)
    else ct.orbit lo hi

/-- The rune-by-rune loop of `strings.EqualFold`; it stops at the first pair that differs and
succeeds only if both strings are exhausted together. -/
def equalFoldRunes (ct : CaseTable) : List Char → List Char → Bool
  | [], [] => true
  | [], _ :: _ => false
  | _ :: _, [] => false
  | sr :: s, tr :: t => if foldRuneEq ct sr tr then equalFoldRunes ct s t else false

/-- Go `strings.EqualFold`. -/
def EqualFold (ct : CaseTable) (s t : String) : Bool :=
  equalFoldRunes ct s.data t.data

/-- Field selection of `encoding/json` for an object key: the field with exactly that name,
otherwise the first field (in declaration order) whose name matches case-insensitively. -/
def fieldIndex (ct : CaseTable) (names : List String) (key : String) : Option Nat :=
  match names.indexOf? key with
  | some i => some i
  | none => names.findIdx? (fun n => EqualFold ct n key)

/-- Storing a JSON value into a Go `string` field: a string is stored, `null` leaves the field
as it is, anything else is an `UnmarshalTypeError`. -/
def assignString (v : Json) (cur : String) : Option String :=
  match v with
  | .str s => some s
  | .null => some cur
  | _ => none

/-- Decoding of the members of a JSON object, in order, into a struct value. -/
def decodeMembers {α : Type} (set : α → String → Json → Option α) :
    α → List (String × Json) → Option α
  | a, [] => some a
  | a, (k, v) :: rest =>
    match set a k v with
    | some a' => decodeMembers set a' rest
    | none => none

/-- Go `opnsense.Response` (types.go). -/
structure Response where
  Status : String := ""
  Result : String := ""
  deriving DecidableEq, Repr

/-- Go `opnsense.HostOverride` (types.go). -/
structure HostOverride where
  UUID : String := ""
  Hostname : String := ""
  Domain : String := ""
  Server : String := ""
  Description : String := ""
  Enabled : String := ""
  deriving DecidableEq, Repr

/-- Go `opnsense.SearchResponse` (types.go).  `spare` holds the slots of the slice's backing
array beyond its length, which `encoding/json` reuses when the `rows` key occurs again. -/
structure SearchResponse where
  Status : String := ""
  Rows : List HostOverride := []
  spare : List HostOverride := []
  deriving DecidableEq, Repr

/-- One member of a JSON object decoded into a `Response`. -/
def Response.setField (ct : CaseTable) (r : Response) (key : String) (v : Json) :
    Option Response :=
  match fieldIndex ct ["status", "result"] key with
  | some 0 => (assignString v r.Status).map (fun s => { r with Status := s })
  | some _ => (assignString v r.Result).map (fun s => { r with Result := s })
  | none => some r

/-- Go `json.Unmarshal(body, &apiResponse)` for a `Response`; `none` is a returned error. -/
def unmarshalResponse (ct : CaseTable) (body : Option Json) : Option Response :=
  match body with
  | some .null => some {}
  | some (.obj members) => decodeMembers (Response.setField ct) {} members
  | _ => none

/-- One member of a JSON object decoded into a `HostOverride`. -/
def HostOverride.setField (ct : CaseTable) (r : HostOverride) (key : String) (v : Json) :
    Option HostOverride :=
  match fieldIndex ct ["uuid", "hostname", "domain", "server", "description", "enabled"] key with
  | some 0 => (assignString v r.UUID).map (fun s => { r with UUID := s })
  | some 1 => (assignString v r.Hostname).map (fun s => { r with Hostname := s })
  | some 2 => (assignString v r.Domain).map (fun s => { r with Domain := s })
  | some 3 => (assignString v r.Server).map (fun s => { r with Server := s })
  | some 4 => (assignString v r.Description).map (fun s => { r with Description := s })
  | some _ => (assignString v r.Enabled).map (fun s => { r with Enabled := s })
  | none => some r

/-- A JSON value decoded into a slice element of type `HostOverride` that currently holds
`cur`: an object sets fields, `null` changes nothing, anything else is a type error. -/
def decodeHostOverride (ct : CaseTable) (v : Json) (cur : HostOverride) : Option HostOverride :=
  match v with
  | .null => some cur
  | .obj members => decodeMembers (HostOverride.setField ct) cur members
  | _ => none

/-- The elements of a JSON array decoded into the slots of the slice (an empty slot where the
slice had none). -/
def decodeRows (ct : CaseTable) : List Json → List HostOverride → Option (List HostOverride)
  | [], _ => some []
  | v :: vs, slots =>
    match decodeHostOverride ct v (slots.headD {}) with
    | none => none
    | some h =>
      match decodeRows ct vs slots.tail with
      | none => none
      | some hs => some (h :: hs)

/-- One member of a JSON object decoded into a `SearchResponse`. -/
def SearchResponse.setField (ct : CaseTable) (r : SearchResponse) (key : String) (v : Json) :
    Option SearchResponse :=
  match fieldIndex ct ["status", "rows"] key with
  | some 0 => (assignString v r.Status).map (fun s => { r with Status := s })
  | some _ =>
    match v with
    | .null => some { r with Rows := [], spare := [] }
    | .arr [] => some { r with Rows := [], spare := [] }
    | .arr items =>
      (decodeRows ct items (r.Rows ++ r.spare)).map
        (fun hs => { r with Rows := hs, spare := (r.Rows ++ r.spare).drop items.length })
    | _ => none
  | none => some r

/-- Go `json.Unmarshal(body, &searchResponse)`; `none` is a returned error. -/
def unmarshalSearchResponse (ct : CaseTable) (body : Option Json) : Option SearchResponse :=
  match body with
  | some .null => some {}
  | some (.obj members) => decodeMembers (SearchResponse.setField ct) {} members
  | _ => none

/-! ## Transport: requests, replies and the remote -/

/-- An HTTP request as it is sent by `makeAPIRequest`: `endpoint` is the request target that
reaches the server (the path of the URL with its query, if any), `payload` the JSON body, if
any. -/
structure Request where
  method : String
  endpoint : String
  payload : Option Json

/-- What the HTTP client hands back: a connection-level failure, or a response with its
status code and body (`none`: the body is not valid JSON). -/
inductive Reply where
  | failure (cause : String)
  | response (status : Nat) (body : Option Json)

/-- The remote side, the clock and the URL escaping of the library: `answer` gives the reply
to a request in a remote state together with the state afterwards; `now` is the formatted
`time.Now()`; `escapePath` is what `url.URL.EscapedPath` makes of a path that holds characters
which may not stand in a path as they are (it is consulted for such paths only). -/
structure World (σ : Type) where
  answer : σ → Request → Reply × σ
  now : σ → String
  escapePath : String → String

/-- Go `error` values, by origin; `wrap` is `fmt.Errorf("...: %v", err)`. -/
inductive Error where
  | unsupportedMethod (method : String)
  | invalidURL (endpoint : String)
  | transport (cause : String)
  | status (code : Nat) (body : Option Json)
  | parse
  | apiFailed (body : Option Json)
  | wrap (context : String) (cause : Error)

/-- Result of running an operation: the returned value, the remote state left behind and the
requests issued, oldest first. -/
structure Step (σ α : Type) where
  val : α
  state : σ
  trace : List Request

/-- Go `net/url` `stringContainsCTLByte`: a control character. -/
def isCTL (c : Char) : Bool :=
  c.toNat < 32 || c.toNat = 127

/-- Go `net/url` `ishex`. -/
def ishex (c : Char) : Bool :=
  (48 ≤ c.toNat && c.toNat ≤ 57) || (97 ≤ c.toNat && c.toNat ≤ 102) ||
    (65 ≤ c.toNat && c.toNat ≤ 70)

/-- Go `net/url` `unescape` of a path or a fragment fails: some `%` is not followed by two
hexadecimal digits. -/
def badEscape : List Char → Bool
  | [] => false
  | c :: rest =>
    if c = '%' then
      match rest with
      | a :: b :: rest' => if ishex a && ishex b then badEscape rest' else true
      | _ => true
    else badEscape rest

/-- The characters Go `net/url` never escapes: ASCII letters, digits and `-`, `_`, `.`,
`~`. -/
def isUnreserved (c : Char) : Bool :=
  (97 ≤ c.toNat && c.toNat ≤ 122) || (65 ≤ c.toNat && c.toNat ≤ 90) ||
    (48 ≤ c.toNat && c.toNat ≤ 57) || c = '-' || c = '_' || c = '.' || c = '~'

/-- One character of Go `net/url` `validEncoded` for a path: unreserved characters, the
reserved characters a path may hold, the sub-delimiters (39 is the apostrophe), the square
brackets and the percent sign. -/
def validPathChar (c : Char) : Bool :=
  isUnreserved c || "$&+,/:;=@".data.contains c || "!()*[]".data.contains c || c.toNat = 39 ||
    c = '%'

/-- What the HTTP client makes of the URL `https://<host><endpoint>` built by
`makeAPIRequest`, where the configured host is taken to be a well-formed host name or address
(with an optional port), so that the path of the URL begins where the endpoint begins.  The
URL passes through `url.Parse`: the part from the first `#` on is the fragment, which is not
sent; a control character before the fragment, or a `%` in the path or in the fragment that is
not followed by two hexadecimal digits, makes the URL invalid (`none`: nothing is sent).
Otherwise the request target (`url.URL.RequestURI`) is the escaped path followed by the query:
a path of valid path characters stays as it is, any other path is escaped anew by
`url.URL.EscapedPath`. -/
def requestTarget {σ : Type} (w : World σ) (endpoint : String) : Option String :=
  let u := endpoint.data.takeWhile (fun c => c ≠ '#')
  let fragment := (endpoint.data.dropWhile (fun c => c ≠ '#')).drop 1
  let path := u.takeWhile (fun c => c ≠ '?')
  let query := u.dropWhile (fun c => c ≠ '?')
  if u.any isCTL || badEscape path || badEscape fragment then none
  else if path.all validPathChar then some (String.mk u)
  else some (String.mk ((w.escapePath (String.mk path)).data ++ query))

/-- Go `UnboundService.makeAPIRequest`.  The HTTP client returns an error without sending
anything when it cannot parse the URL; otherwise the request reaches the remote with the
request target of the URL. -/
def makeAPIRequest {σ : Type} (w : World σ) (s : σ) (method endpoint : String)
    (payload : Option Json) : Step σ (Except Error (Option Json)) :=
  if method = "GET" ∨ method = "POST" then
    match requestTarget w endpoint with
    | none => ⟨.error (.invalidURL endpoint), s, []⟩
    | some target =>
      match w.answer s ⟨method, target, payload⟩ with
      | (.failure cause, s') => ⟨.error (.transport cause), s', [⟨method, target, payload⟩]⟩
      | (.response status body, s') =>
        if status ≠ 200 then ⟨.error (.status status body), s', [⟨method, target, payload⟩]⟩
        else ⟨.ok body, s', [⟨method, target, payload⟩]⟩
  else ⟨.error (.unsupportedMethod method), s, []⟩

/-- Go `UnboundService.parseAPIResponse`. -/
def parseAPIResponse (ct : CaseTable) (body : Option Json) : Except Error Unit :=
  match unmarshalResponse ct body with
  | none => .error .parse
  | some apiResponse =>
    if apiResponse.Result = "failed" then .error (.apiFailed body) else .ok ()

/-- Go `UnboundService.createHostPayload`; `now` is the formatted current time.  The member
lists stand for the Go maps. -/
def createHostPayload (now hostname domain ip enabled : String) : Json :=
  let host : List (String × Json) :=
    [("hostname", .str hostname), ("domain", .str domain), ("rr", .str "A"), ("server", .str ip),
     ("description", .str ("Auto-updated by opnsense-auto-dns at " ++ now))]
  .obj [("host", .obj (if enabled ≠ "" then host ++ [("enabled", .str enabled)] else host))]

/-- Go `UnboundService.ReconfigureService`. -/
def ReconfigureService {σ : Type} (w : World σ) (ct : CaseTable) (s : σ) :
    Step σ (Except Error Unit) :=
  let r := makeAPIRequest w s "POST" "/api/unbound/service/reconfigure" (some (.obj []))
  match r.val with
  | .error e => ⟨.error (.wrap "failed to reconfigure unbound service" e), r.state, r.trace⟩
  | .ok body => ⟨parseAPIResponse ct body, r.state, r.trace⟩

/-- The loop of `GetExistingDNSRecord` over `searchResponse.Rows`. -/
def scanRows (ct : CaseTable) (hostname domain : String) : List HostOverride → Option HostOverride
  | [] => none
  | record :: rest =>
    if EqualFold ct record.Hostname hostname && EqualFold ct record.Domain domain then some record
    else scanRows ct hostname domain rest

/-- Go `UnboundService.GetExistingDNSRecord`: `.ok none` is the Go result `(nil, nil)`. -/
def GetExistingDNSRecord {σ : Type} (w : World σ) (ct : CaseTable) (s : σ)
    (hostname domain : String) : Step σ (Except Error (Option HostOverride)) :=
  let r := makeAPIRequest w s "GET" "/api/unbound/settings/search_host_override" none
  match r.val with
  | .error e => ⟨.error (.wrap "failed to fetch existing DNS records" e), r.state, r.trace⟩
  | .ok body =>
    match unmarshalSearchResponse ct body with
    | none => ⟨.error (.wrap "failed to parse DNS records response" .parse), r.state, r.trace⟩
    | some searchResponse => ⟨.ok (scanRows ct hostname domain searchResponse.Rows), r.state, r.trace⟩

/-- Go `UnboundService.UpdateDNSRecord`. -/
def UpdateDNSRecord {σ : Type} (w : World σ) (ct : CaseTable) (s : σ) (record : HostOverride)
    (hostname domain ip : String) : Step σ (Except Error Unit) :=
  let r := makeAPIRequest w s "POST" ("/api/unbound/settings/setHostOverride/" ++ record.UUID)
    (some (createHostPayload (w.now s) hostname domain ip "1"))
  match r.val with
  | .error e => ⟨.error (.wrap "error updating DNS" e), r.state, r.trace⟩
  | .ok body =>
    match parseAPIResponse ct body with
    | .error e => ⟨.error e, r.state, r.trace⟩
    | .ok _ =>
      let c := ReconfigureService w ct r.state
      match c.val with
      | .error e =>
        ⟨.error (.wrap "DNS record updated but failed to reconfigure service" e), c.state,
          r.trace ++ c.trace⟩
      | .ok _ => ⟨.ok (), c.state, r.trace ++ c.trace⟩

/-- Go `UnboundService.CreateDNSRecord`. -/
def CreateDNSRecord {σ : Type} (w : World σ) (ct : CaseTable) (s : σ)
    (hostname domain ip : String) : Step σ (Except Error Unit) :=
  let r := makeAPIRequest w s "POST" "/api/unbound/settings/addHostOverride"
    (some (createHostPayload (w.now s) hostname domain ip ""))
  match r.val with
  | .error e => ⟨.error (.wrap "error creating DNS" e), r.state, r.trace⟩
  | .ok body =>
    match parseAPIResponse ct body with
    | .error e => ⟨.error e, r.state, r.trace⟩
    | .ok _ =>
      let c := ReconfigureService w ct r.state
      match c.val with
      | .error e =>
        ⟨.error (.wrap "DNS record created but failed to reconfigure service" e), c.state,
          r.trace ++ c.trace⟩
      | .ok _ => ⟨.ok (), c.state, r.trace ++ c.trace⟩

/-! ## The updater (cmd/auto-updater.go) -/

/-- How a call of `updateDNSForHostname` ended.  The Go function returns only an `error`;
`failed` is a non-nil error, the other three are the nil returns, told apart by the log line
written last ("IP unchanged, skipping update", "Successfully updated DNS record",
"Successfully created DNS record"). -/
inductive Outcome where
  | unchanged
  | updated (oldIP newIP : String)
  | created (ip : String)
  | failed (err : Error)

/-- The Go return value of `updateDNSForHostname`: `none` is `nil`. -/
def Outcome.err : Outcome → Option Error
  | .failed e => some e
  | _ => none

/-- Go `updateDNSForHostname`. -/
def updateDNSForHostname {σ : Type} (w : World σ) (ct : CaseTable) (s : σ)
    (hostname domain currentIP : String) : Step σ Outcome :=
  let g := GetExistingDNSRecord w ct s hostname domain
  match g.val with
  | .error e => ⟨.failed (.wrap "error getting existing DNS record" e), g.state, g.trace⟩
  | .ok existingRecord =>
    let oldIP :=
      match existingRecord with
      | some record => record.Server
      | none => "none"
    if oldIP = currentIP then ⟨.unchanged, g.state, g.trace⟩
    else
      match existingRecord with
      | some record =>
        let u := UpdateDNSRecord w ct g.state record hostname domain currentIP
        match u.val with
        | .error e => ⟨.failed (.wrap "error updating DNS record" e), u.state, g.trace ++ u.trace⟩
        | .ok _ => ⟨.updated oldIP currentIP, u.state, g.trace ++ u.trace⟩
      | none =>
        let c := CreateDNSRecord w ct g.state hostname domain currentIP
        match c.val with
        | .error e => ⟨.failed (.wrap "error creating DNS record" e), c.state, g.trace ++ c.trace⟩
        | .ok _ => ⟨.created currentIP, c.state, g.trace ++ c.trace⟩

/-- Go `cmd.Config`. -/
structure Config where
  OPNsenseHost : String := ""
  OPNsenseAPIKey : String := ""
  OPNsenseAPISecret : String := ""
  Domain : String := ""
  Hostnames : List String := []
  IPAddress : String := ""
  deriving DecidableEq, Repr

/-- The local machine as seen by the updater: the result of `os.Hostname()` and the local
address of the UDP probe `net.Dial("udp", "1.1.1.1:80")`. -/
structure Machine where
  osHostname : Except String String
  probeIP : Except String String

/-- Go `getMachineHostname`. -/
def getMachineHostname (m : Machine) : Except Error String :=
  match m.osHostname with
  | .error cause => .error (.wrap "failed to get machine hostname" (.transport cause))
  | .ok hostname => .ok hostname

/-- Go `getHostnamesToUse`. -/
def getHostnamesToUse (m : Machine) (config : Config) : Except Error (List String) :=
  if config.Hostnames.length > 0 then .ok config.Hostnames
  else
    match getMachineHostname m with
    | .error e => .error e
    | .ok hostname => .ok [hostname]

/-- Go `getCurrentIP`. -/
def getCurrentIP (m : Machine) (config : Config) : Except Error String :=
  if config.IPAddress ≠ "" then .ok config.IPAddress
  else
    match m.probeIP with
    | .error cause => .error (.wrap "failed to create UDP connection" (.transport cause))
    | .ok ip => .ok ip

/-- The `for _, hostname := range hostnamesToUse` loop of `updateDNS`: an error of one
hostname is logged and the loop goes on.  The value lists, per hostname, how its call ended. -/
def updateDNSLoop {σ : Type} (w : World σ) (ct : CaseTable) (domain currentIP : String) :
    List String → σ → Step σ (List Outcome)
  | [], s => ⟨[], s, []⟩
  | hostname :: rest, s =>
    let r := updateDNSForHostname w ct s hostname domain currentIP
    let t := updateDNSLoop w ct domain currentIP rest r.state
    ⟨r.val :: t.val, t.state, r.trace ++ t.trace⟩

/-- Go `updateDNS`. -/
def updateDNS {σ : Type} (w : World σ) (ct : CaseTable) (m : Machine) (config : Config) (s : σ) :
    Step σ (List Outcome) :=
  match getCurrentIP m config with
  | .error _ => ⟨[], s, []⟩
  | .ok currentIP =>
    match getHostnamesToUse m config with
    | .error _ => ⟨[], s, []⟩
    | .ok hostnamesToUse => updateDNSLoop w ct config.Domain currentIP hostnamesToUse s

/-! ## A remote store that applies what it accepts

The remote side of the idempotence property: a table of host overrides that answers a search
with its rows, appends the row of an accepted create, rewrites the row named by an accepted
update, and is changed by nothing else. -/

/-- The choices left open around the remote store: which write requests it accepts in a given
state, the identifier it gives to a new row, the clock, and the URL escaping of the client's
library (see `World.escapePath`). -/
structure StorePolicy where
  accepts : List HostOverride → Request → Bool
  freshUUID : List HostOverride → String
  clock : List HostOverride → String
  escapePath : String → String

/-- A row as the store renders it in a search response. -/
def encodeRow (r : HostOverride) : Json :=
  .obj [("uuid", .str r.UUID), ("hostname", .str r.Hostname), ("domain", .str r.Domain),
    ("server", .str r.Server), ("description", .str r.Description), ("enabled", .str r.Enabled)]

/-- The body of the store's search response. -/
def searchBody (rows : List HostOverride) : Json :=
  .obj [("rows", .arr (rows.map encodeRow))]

/-- The row described by a host payload, under the identifier `uuid`; a payload without
`enabled` gets the store's default `"1"`. -/
def rowOfPayload (uuid : String) (payload : Option Json) : Option HostOverride :=
  match payload with
  | none => none
  | some p =>
    match p.member "host" with
    | none => none
    | some host =>
      match host.member "hostname", host.member "domain", host.member "server",
        host.member "description" with
      | some (.str hostname), some (.str domain), some (.str server), some (.str description) =>
        some ⟨uuid, hostname, domain, server, description,
          match host.member "enabled" with
          | some (.str e) => e
          | _ => "1"⟩
      | _, _, _, _ => none

/-- The store's reply to a refused or unusable write. -/
def failedBody : Json := .obj [("result", .str "failed")]

/-- The store's reply to an applied write. -/
def savedBody : Json := .obj [("result", .str "saved")]

/-- The store's answer to one request. -/
def storeAnswer (p : StorePolicy) (rows : List HostOverride) (req : Request) :
    Reply × List HostOverride :=
  if req.method = "GET" then
    if req.endpoint = "/api/unbound/settings/search_host_override" then
      (.response 200 (some (searchBody rows)), rows)
    else (.response 404 none, rows)
  else if p.accepts rows req = false then (.response 200 (some failedBody), rows)
  else if "/api/unbound/settings/setHostOverride/".data.isPrefixOf req.endpoint.data then
    match rowOfPayload
      (String.mk (req.endpoint.data.drop "/api/unbound/settings/setHostOverride/".length))
      req.payload with
    | none => (.response 200 (some failedBody), rows)
    | some r =>
      if rows.any (fun x => x.UUID = r.UUID) then
        (.response 200 (some savedBody), rows.map (fun x => if x.UUID = r.UUID then r else x))
      else (.response 200 (some failedBody), rows)
  else if req.endpoint = "/api/unbound/settings/addHostOverride" then
    match rowOfPayload (p.freshUUID rows) req.payload with
    | none => (.response 200 (some failedBody), rows)
    | some r => (.response 200 (some savedBody), rows ++ [r])
  else if req.endpoint = "/api/unbound/service/reconfigure" then
    (.response 200 (some (.obj [("status", .str "ok")])), rows)
  else (.response 404 none, rows)

/-- The store as a remote. -/
def storeWorld (p : StorePolicy) : World (List HostOverride) :=
  ⟨storeAnswer p, p.clock, p.escapePath⟩

/-- A store that accepts every write. -/
def openStore : StorePolicy :=
  ⟨fun _ _ => true, fun rows => String.join ("id" :: rows.map (fun r => r.UUID)),
    fun _ => "2024-01-01 00:00:00", fun path => path⟩

/-- A case table without any non-ASCII folding. -/
def asciiTable : CaseTable := ⟨fun _ _ => false⟩

/-- The lookup request issued by `GetExistingDNSRecord`. -/
def searchRequest : Request := ⟨"GET", "/api/unbound/settings/search_host_override", none⟩

/-- The request issued by `ReconfigureService`. -/
def reconfigureRequest : Request :=
  ⟨"POST", "/api/unbound/service/reconfigure", some (.obj [])⟩

/-- The create request of `CreateDNSRecord`. -/
def createRequest (now hostname domain ip : String) : Request :=
  ⟨"POST", "/api/unbound/settings/addHostOverride",
    some (createHostPayload now hostname domain ip "")⟩

/-- The update request of `UpdateDNSRecord` for the record with identifier `uuid`. -/
def updateRequest (now uuid hostname domain ip : String) : Request :=
  ⟨"POST", "/api/unbound/settings/setHostOverride/" ++ uuid,
    some (createHostPayload now hostname domain ip "1")⟩

/-- A reply that `makeAPIRequest` and `parseAPIResponse` both let pass: status 200 and a body
that parses with a `result` other than `"failed"`. -/
def replyAccepted (ct : CaseTable) : Reply → Bool
  | .response status body =>
    status = 200 &&
      (match parseAPIResponse ct body with
       | .ok _ => true
       | .error _ => false)
  | .failure _ => false

/-- What `makeAPIRequest` returns for a reply. -/
def replyValue : Reply → Except Error (Option Json)
  | .failure cause => .error (.transport cause)
  | .response status body => if status ≠ 200 then .error (.status status body) else .ok body

/-- A create request: a POST to `addHostOverride`. -/
def isCreate (r : Request) : Bool :=
  r.method == "POST" && r.endpoint == "/api/unbound/settings/addHostOverride"

/-- An update request: a POST below `setHostOverride/`. -/
def isUpdate (r : Request) : Bool :=
  r.method == "POST" && "/api/unbound/settings/setHostOverride/".data.isPrefixOf r.endpoint.data

/-- A reconfigure request: a POST to `service/reconfigure`. -/
def isReconfigure (r : Request) : Bool :=
  r.method == "POST" && r.endpoint == "/api/unbound/service/reconfigure"

/-- Both names of a row match the requested ones, as tested in `GetExistingDNSRecord`. -/
def rowMatches (ct : CaseTable) (hostname domain : String) (record : HostOverride) : Bool :=
  EqualFold ct record.Hostname hostname && EqualFold ct record.Domain domain

/-- The remote state in which `updateDNS` reaches the hostname at position `i`: the state left
by the calls for the `i` hostnames before it. -/
def stateBefore {σ : Type} (w : World σ) (ct : CaseTable) (domain currentIP : String)
    (hostnames : List String) (s : σ) (i : Nat) : σ :=
  (hostnames.take i).foldl
    (fun st hostname => (updateDNSForHostname w ct st hostname domain currentIP).state) s

/-- A remote that cannot be reached: every request fails at the connection level. -/
def downWorld : World Unit :=
  ⟨fun s _ => (.failure "connection refused", s), fun _ => "2024-01-01 00:00:00",
    fun path => path⟩

/-- A store that refuses every write whose payload names the hostname "b". -/
def pickyStore : StorePolicy :=
  ⟨fun _ req =>
      match rowOfPayload "" req.payload with
      | some r => r.Hostname != "b"
      | none => true,
    fun rows => String.join ("id" :: rows.map (fun r => r.UUID)),
    fun _ => "2024-01-01 00:00:00", fun path => path⟩

/-- A remote that answers every request with status 200 and the empty JSON object. -/
def emptyObjectWorld : World Unit :=
  ⟨fun s _ => (.response 200 (some (.obj [])), s), fun _ => "2024-01-01 00:00:00",
    fun path => path⟩

/-- The object key `key` is decoded into the field `Rows` of a `SearchResponse`. -/
def selectsRows (ct : CaseTable) (key : String) : Bool :=
  match fieldIndex ct ["status", "rows"] key with
  | some 0 => false
  | some _ => true
  | none => false

/-- A JSON value that `encoding/json` stores into a slice: an array or `null`. -/
def isListOrNull : Json → Bool
  | .arr _ => true
  | .null => true
  | _ => false

/-- A JSON value that `encoding/json` stores into a `string` field without error: a string
or `null`. -/
def isStringOrNull : Json → Bool
  | .str _ => true
  | .null => true
  | _ => false

/-- The object key `key` is decoded into one of the fields of a `Response`. -/
def selectsResponseField (ct : CaseTable) (key : String) : Bool :=
  (fieldIndex ct ["status", "result"] key).isSome

/-! ## Configuration (cmd/auto-updater.go, `loadConfig`) -/

/-- The keys of a JSON object, in the order of its members. -/
def Json.keys : Json → List String
  | .obj members => members.map (fun kv => kv.1)
  | _ => []

/-- The elements of a JSON array decoded into the slots of a `[]string` (an empty string
where the slice had no slot). -/
def decodeStrings : List Json → List String → Option (List String)
  | [], _ => some []
  | v :: vs, slots =>
    match assignString v (slots.headD "") with
    | none => none
    | some h =>
      match decodeStrings vs slots.tail with
      | none => none
      | some hs => some (h :: hs)

/-- One member of a JSON object decoded into a `Config`; the second component holds the slots
of the backing array of `Hostnames` beyond its length. -/
def Config.setField (ct : CaseTable) (c : Config × List String) (key : String) (v : Json) :
    Option (Config × List String) :=
  match fieldIndex ct ["opnsense_host", "opnsense_api_key", "opnsense_api_secret", "domain",
      "hostnames", "ip_address"] key with
  | some 0 => (assignString v c.1.OPNsenseHost).map (fun s => ({ c.1 with OPNsenseHost := s }, c.2))
  | some 1 =>
    (assignString v c.1.OPNsenseAPIKey).map (fun s => ({ c.1 with OPNsenseAPIKey := s }, c.2))
  | some 2 =>
    (assignString v c.1.OPNsenseAPISecret).map
      (fun s => ({ c.1 with OPNsenseAPISecret := s }, c.2))
  | some 3 => (assignString v c.1.Domain).map (fun s => ({ c.1 with Domain := s }, c.2))
  | some 4 =>
    match v with
    | .null => some ({ c.1 with Hostnames := [] }, [])
    | .arr [] => some ({ c.1 with Hostnames := [] }, [])
    | .arr items =>
      (decodeStrings items (c.1.Hostnames ++ c.2)).map
        (fun hs => ({ c.1 with Hostnames := hs }, (c.1.Hostnames ++ c.2).drop items.length))
    | _ => none
  | some _ => (assignString v c.1.IPAddress).map (fun s => ({ c.1 with IPAddress := s }, c.2))
  | none => some c

/-- Go `json.Unmarshal(data, &config)` for a zero `Config`; `none` is a returned error. -/
def unmarshalConfig (ct : CaseTable) (data : Option Json) : Option Config :=
  match data with
  | some .null => some {}
  | some (.obj members) => (decodeMembers (Config.setField ct) ({}, []) members).map (fun c => c.1)
  | _ => none

/-- The command-line flags read by `loadConfig` (the package-level flag variables). -/
structure Flags where
  configFile : String := ""
  opnsenseHost : String := ""
  opnsenseAPIKey : String := ""
  opnsenseAPISecret : String := ""
  domain : String := ""
  ipAddress : String := ""
  hostnames : List String := []

/-- What `loadConfig` reads from its surroundings: the flags, `os.Getenv` (an unset variable
reads as the empty string) and `os.ReadFile`, whose content is given as a JSON tree (`none`:
not valid JSON). -/
structure Startup where
  flags : Flags
  getenv : String → String
  readFile : String → Except String (Option Json)

/-- The loop of `strings.Split(s, ",")` over the characters of `s`; `piece` holds the
characters of the current piece, last first. -/
def splitComma : List Char → List Char → List String
  | [], piece => [String.mk piece.reverse]
  | c :: cs, piece =>
    if c = ',' then String.mk piece.reverse :: splitComma cs [] else splitComma cs (c :: piece)

/-- The first block of `loadConfig`: the config file, when one is named, is read and decoded;
a failure of either step is fatal (`logger.Fatal` ends the process). -/
def readConfigFile (ct : CaseTable) (a : Startup) : Except String Config :=
  if a.flags.configFile ≠ "" then
    match a.readFile a.flags.configFile with
    | .error _ => .error "Error reading config file"
    | .ok data =>
      match unmarshalConfig ct data with
      | none => .error "Error parsing config"
      | some config => .ok config
  else .ok {}

/-- The overrides of `loadConfig` from the command line. -/
def applyFlags (f : Flags) (config : Config) : Config :=
  let config := if f.opnsenseHost ≠ "" then { config with OPNsenseHost := f.opnsenseHost } else config
  let config :=
    if f.opnsenseAPIKey ≠ "" then { config with OPNsenseAPIKey := f.opnsenseAPIKey } else config
  let config :=
    if f.opnsenseAPISecret ≠ "" then { config with OPNsenseAPISecret := f.opnsenseAPISecret }
    else config
  let config := if f.domain ≠ "" then { config with Domain := f.domain } else config
  let config := if f.ipAddress ≠ "" then { config with IPAddress := f.ipAddress } else config
  if f.hostnames.length > 0 then { config with Hostnames := f.hostnames } else config

/-- The overrides of `loadConfig` from the environment. -/
def applyEnv (getenv : String → String) (config : Config) : Config :=
  let config :=
    if getenv "OPNSENSE_HOST" ≠ "" then { config with OPNsenseHost := getenv "OPNSENSE_HOST" }
    else config
  let config :=
    if getenv "OPNSENSE_API_KEY" ≠ "" then
      { config with OPNsenseAPIKey := getenv "OPNSENSE_API_KEY" }
    else config
  let config :=
    if getenv "OPNSENSE_API_SECRET" ≠ "" then
      { config with OPNsenseAPISecret := getenv "OPNSENSE_API_SECRET" }
    else config
  let config := if getenv "DOMAIN" ≠ "" then { config with Domain := getenv "DOMAIN" } else config
  let config :=
    if getenv "HOSTNAMES" ≠ "" then
      { config with Hostnames := splitComma (getenv "HOSTNAMES").data [] }
    else config
  if getenv "IP_ADDRESS" ≠ "" then { config with IPAddress := getenv "IP_ADDRESS" } else config

/-- The closing checks of `loadConfig`: the first empty required field is fatal. -/
def checkRequired (config : Config) : Except String Config :=
  if config.OPNsenseHost = "" then .error "opnsense_host is required"
  else if config.OPNsenseAPIKey = "" then .error "opnsense_api_key is required"
  else if config.OPNsenseAPISecret = "" then .error "opnsense_api_secret is required"
  else if config.Domain = "" then .error "domain is required"
  else .ok config

/-- Go `loadConfig`: `.error` is a fatal log message, after which the process has ended. -/
def loadConfig (ct : CaseTable) (a : Startup) : Except String Config :=
  match readConfigFile ct a with
  | .error msg => .error msg
  | .ok config => checkRequired (applyEnv a.getenv (applyFlags a.flags config))

/-- The precedence rule in the words of the specification: the environment value if it is not
empty, otherwise the flag value if it is not empty, otherwise the value of the config file. -/
def pick (envValue flagValue fileValue : String) : String :=
  if envValue ≠ "" then envValue else if flagValue ≠ "" then flagValue else fileValue

/-- The precedence rule for the hostname list in the words of the specification. -/
def pickHostnames (envValue : String) (flagValue fileValue : List String) : List String :=
  if envValue ≠ "" then splitComma envValue.data []
  else if flagValue ≠ [] then flagValue else fileValue

/-- The effective configuration in the words of the specification, given the decoded config
file `file`. -/
def effectiveConfig (a : Startup) (file : Config) : Config where
  OPNsenseHost := pick (a.getenv "OPNSENSE_HOST") a.flags.opnsenseHost file.OPNsenseHost
  OPNsenseAPIKey := pick (a.getenv "OPNSENSE_API_KEY") a.flags.opnsenseAPIKey file.OPNsenseAPIKey
  OPNsenseAPISecret :=
    pick (a.getenv "OPNSENSE_API_SECRET") a.flags.opnsenseAPISecret file.OPNsenseAPISecret
  Domain := pick (a.getenv "DOMAIN") a.flags.domain file.Domain
  Hostnames := pickHostnames (a.getenv "HOSTNAMES") a.flags.hostnames file.Hostnames
  IPAddress := pick (a.getenv "IP_ADDRESS") a.flags.ipAddress file.IPAddress

/-- A config file that spells out every field of `config` under its JSON name. -/
def encodeConfig (config : Config) : Json :=
  .obj [("opnsense_host", .str config.OPNsenseHost),
    ("opnsense_api_key", .str config.OPNsenseAPIKey),
    ("opnsense_api_secret", .str config.OPNsenseAPISecret),
    ("domain", .str config.Domain),
    ("hostnames", .arr (config.Hostnames.map (fun h => Json.str h))),
    ("ip_address", .str config.IPAddress)]

/-! ## Theorems -/

/-! ### Transport -/

theorem takeWhile_of_all {α : Type} (p : α → Bool) (l : List α) (h : l.all p = true) :
    l.takeWhile p = l ∧ l.dropWhile p = [] := by
  induction l with
  | nil => simp
  | cons x xs ih =>
    simp only [List.all_cons, Bool.and_eq_true] at h
    simp [List.takeWhile, List.dropWhile, h.1, ih h.2]

theorem badEscape_of_no_percent (l : List Char) (h : ∀ c ∈ l, c ≠ '%') :
    badEscape l = false := by
  induction l with
  | nil => rfl
  | cons x xs ih =>
    unfold badEscape
    rw [if_neg (h x (List.mem_cons_self _ _))]
    exact ih (fun c hc => h c (List.mem_cons_of_mem _ hc))

theorem isUnreserved_facts (c : Char) (h : isUnreserved c = true) :
    c ≠ '#' ∧ c ≠ '?' ∧ c ≠ '%' ∧ isCTL c = false ∧ validPathChar c = true := by
  refine ⟨?_, ?_, ?_, ?_, ?_⟩
  · rintro rfl
    revert h
    decide
  · rintro rfl
    revert h
    decide
  · rintro rfl
    revert h
    decide
  · simp only [isUnreserved, Bool.or_eq_true, Bool.and_eq_true, decide_eq_true_eq] at h
    rcases h with (((((h | h) | h) | h) | h) | h) | h
    · simp [isCTL]; omega
    · simp [isCTL]; omega
    · simp [isCTL]; omega
    · subst h; decide
    · subst h; decide
    · subst h; decide
    · subst h; decide
  · simp [validPathChar, h]

theorem requestTarget_of_unreserved {σ : Type} (w : World σ) (e : String)
    (h : ∀ c ∈ e.data, isUnreserved c = true ∨ c = '/') : requestTarget w e = some e := by
  have hf : ∀ c ∈ e.data,
      c ≠ '#' ∧ c ≠ '?' ∧ c ≠ '%' ∧ isCTL c = false ∧ validPathChar c = true := by
    intro c hc
    rcases h c hc with hu | rfl
    · exact isUnreserved_facts c hu
    · decide
  have h1 := takeWhile_of_all (fun c => decide (c ≠ '#')) e.data
    (List.all_eq_true.2 (fun c hc => by simpa using (hf c hc).1))
  have h2 := takeWhile_of_all (fun c => decide (c ≠ '?')) e.data
    (List.all_eq_true.2 (fun c hc => by simpa using (hf c hc).2.1))
  have h3 : e.data.any isCTL = false := by
    rw [List.any_eq_false]
    intro c hc
    simpa using (hf c hc).2.2.2.1
  have h4 : badEscape e.data = false :=
    badEscape_of_no_percent e.data (fun c hc => (hf c hc).2.2.1)
  have h5 : e.data.all validPathChar = true :=
    List.all_eq_true.2 (fun c hc => (hf c hc).2.2.2.2)
  unfold requestTarget
  simp only [h1.1, h1.2, h2.1, h3, h4, h5, List.drop_nil, badEscape]
  simp

theorem requestTarget_setHostOverride {σ : Type} (w : World σ) (uuid : String)
    (h : uuid.data.all isUnreserved = true) :
    requestTarget w ("/api/unbound/settings/setHostOverride/" ++ uuid) =
      some ("/api/unbound/settings/setHostOverride/" ++ uuid) := by
  apply requestTarget_of_unreserved
  intro c hc
  rw [String.data_append, List.mem_append] at hc
  rcases hc with hc | hc
  · revert c
    decide
  · exact Or.inl (List.all_eq_true.1 h c hc)

theorem requestTarget_search {σ : Type} (w : World σ) :
    requestTarget w "/api/unbound/settings/search_host_override" =
      some "/api/unbound/settings/search_host_override" := rfl

theorem requestTarget_add {σ : Type} (w : World σ) :
    requestTarget w "/api/unbound/settings/addHostOverride" =
      some "/api/unbound/settings/addHostOverride" := rfl

theorem requestTarget_reconfigure {σ : Type} (w : World σ) :
    requestTarget w "/api/unbound/service/reconfigure" =
      some "/api/unbound/service/reconfigure" := rfl

theorem makeAPIRequest_unsent {σ : Type} (w : World σ) (s : σ) (method endpoint : String)
    (payload : Option Json) (h : requestTarget w endpoint = none) :
    (makeAPIRequest w s method endpoint payload).trace = [] ∧
      (makeAPIRequest w s method endpoint payload).state = s ∧
      ∃ e, (makeAPIRequest w s method endpoint payload).val = .error e := by
  unfold makeAPIRequest
  by_cases hm : method = "GET" ∨ method = "POST"
  · rw [if_pos hm]
    simp [h]
  · rw [if_neg hm]
    simp

theorem makeAPIRequest_post {σ : Type} (w : World σ) (s : σ) (endpoint target : String)
    (payload : Option Json) (htarget : requestTarget w endpoint = some target) :
    makeAPIRequest w s "POST" endpoint payload =
      ⟨replyValue (w.answer s ⟨"POST", target, payload⟩).1,
        (w.answer s ⟨"POST", target, payload⟩).2, [⟨"POST", target, payload⟩]⟩ := by
  unfold makeAPIRequest
  rw [if_pos (Or.inr rfl)]
  simp only [htarget]
  rcases h : w.answer s ⟨"POST", target, payload⟩ with ⟨reply, s1⟩
  cases reply with
  | failure cause => simp [replyValue]
  | response status body =>
    by_cases hs : status = 200 <;> simp [replyValue, hs]

theorem makeAPIRequest_get {σ : Type} (w : World σ) (s : σ) (endpoint target : String)
    (payload : Option Json) (htarget : requestTarget w endpoint = some target) :
    makeAPIRequest w s "GET" endpoint payload =
      ⟨replyValue (w.answer s ⟨"GET", target, payload⟩).1,
        (w.answer s ⟨"GET", target, payload⟩).2, [⟨"GET", target, payload⟩]⟩ := by
  unfold makeAPIRequest
  rw [if_pos (Or.inl rfl)]
  simp only [htarget]
  rcases h : w.answer s ⟨"GET", target, payload⟩ with ⟨reply, s1⟩
  cases reply with
  | failure cause => simp [replyValue]
  | response status body =>
    by_cases hs : status = 200 <;> simp [replyValue, hs]

theorem replyAccepted_iff (ct : CaseTable) (r : Reply) :
    replyAccepted ct r = true ↔
      ∃ body, replyValue r = .ok body ∧ parseAPIResponse ct body = .ok () := by
  cases r with
  | failure cause => simp [replyAccepted, replyValue]
  | response status body =>
    by_cases hs : status = 200
    · subst hs
      cases hp : parseAPIResponse ct body with
      | error e => simp [replyAccepted, replyValue, hp]
      | ok u => simp [replyAccepted, replyValue, hp]
    · simp [replyAccepted, replyValue, hs]

theorem replyAccepted_false_iff (ct : CaseTable) (r : Reply) :
    replyAccepted ct r = false ↔
      (∃ e, replyValue r = .error e) ∨
        ∃ body e, replyValue r = .ok body ∧ parseAPIResponse ct body = .error e := by
  cases r with
  | failure cause => simp [replyAccepted, replyValue]
  | response status body =>
    by_cases hs : status = 200
    · subst hs
      cases hp : parseAPIResponse ct body with
      | error e => simp [replyAccepted, replyValue, hp]
      | ok u => simp [replyAccepted, replyValue, hp]
    · simp [replyAccepted, replyValue, hs]

theorem ReconfigureService_eq {σ : Type} (w : World σ) (ct : CaseTable) (s : σ) :
    (ReconfigureService w ct s).trace = [reconfigureRequest] ∧
      (ReconfigureService w ct s).state = (w.answer s reconfigureRequest).2 ∧
      ((ReconfigureService w ct s).val = .ok () ↔
        replyAccepted ct (w.answer s reconfigureRequest).1 = true) := by
  unfold ReconfigureService
  rw [makeAPIRequest_post w s _ _ _ (requestTarget_reconfigure w)]
  simp only [reconfigureRequest]
  rw [replyAccepted_iff]
  cases hv : replyValue (w.answer s ⟨"POST", "/api/unbound/service/reconfigure", some (.obj [])⟩).1 with
  | error e => simp
  | ok body => simp

/-! ### Create and update, each followed by a reconfigure -/

theorem CreateDNSRecord_eq {σ : Type} (w : World σ) (ct : CaseTable) (s : σ)
    (hostname domain ip : String) :
    (CreateDNSRecord w ct s hostname domain ip).trace =
        (if replyAccepted ct (w.answer s (createRequest (w.now s) hostname domain ip)).1 then
          [createRequest (w.now s) hostname domain ip, reconfigureRequest]
        else [createRequest (w.now s) hostname domain ip]) ∧
      (CreateDNSRecord w ct s hostname domain ip).state =
        (if replyAccepted ct (w.answer s (createRequest (w.now s) hostname domain ip)).1 then
          (w.answer (w.answer s (createRequest (w.now s) hostname domain ip)).2
            reconfigureRequest).2
        else (w.answer s (createRequest (w.now s) hostname domain ip)).2) ∧
      ((CreateDNSRecord w ct s hostname domain ip).val = .ok () ↔
        replyAccepted ct (w.answer s (createRequest (w.now s) hostname domain ip)).1 = true ∧
          replyAccepted ct (w.answer (w.answer s (createRequest (w.now s) hostname domain ip)).2
            reconfigureRequest).1 = true) := by
  unfold CreateDNSRecord
  rw [makeAPIRequest_post w s _ _ _ (requestTarget_add w)]
  simp only [createRequest]
  cases hacc : replyAccepted ct (w.answer s ⟨"POST", "/api/unbound/settings/addHostOverride",
      some (createHostPayload (w.now s) hostname domain ip "")⟩).1 with
  | false =>
    rcases (replyAccepted_false_iff ct _).1 hacc with ⟨e, he⟩ | ⟨body, e, hb, hp⟩
    · simp [he]
    · simp [hb, hp]
  | true =>
    obtain ⟨body, hb, hp⟩ := (replyAccepted_iff ct _).1 hacc
    obtain ⟨ht, hst, hv⟩ := ReconfigureService_eq w ct
      (w.answer s ⟨"POST", "/api/unbound/settings/addHostOverride",
        some (createHostPayload (w.now s) hostname domain ip "")⟩).2
    simp only [hb, hp, ht, hst]
    cases hr : (ReconfigureService w ct (w.answer s ⟨"POST", "/api/unbound/settings/addHostOverride",
        some (createHostPayload (w.now s) hostname domain ip "")⟩).2).val with
    | error e =>
      have : ¬ replyAccepted ct (w.answer (w.answer s ⟨"POST",
          "/api/unbound/settings/addHostOverride",
          some (createHostPayload (w.now s) hostname domain ip "")⟩).2 reconfigureRequest).1
          = true := by
        intro h
        rw [hv.2 h] at hr
        cases hr
      simp [this]
    | ok u =>
      have := hv.1 hr
      simp [this]

theorem UpdateDNSRecord_sent {σ : Type} (w : World σ) (ct : CaseTable) (s : σ)
    (record : HostOverride) (hostname domain ip target : String)
    (htarget : requestTarget w ("/api/unbound/settings/setHostOverride/" ++ record.UUID) =
      some target) :
    (UpdateDNSRecord w ct s record hostname domain ip).trace =
        (if replyAccepted ct (w.answer s
            ⟨"POST", target, some (createHostPayload (w.now s) hostname domain ip "1")⟩).1 then
          [⟨"POST", target, some (createHostPayload (w.now s) hostname domain ip "1")⟩,
            reconfigureRequest]
        else [⟨"POST", target, some (createHostPayload (w.now s) hostname domain ip "1")⟩]) ∧
      (UpdateDNSRecord w ct s record hostname domain ip).state =
        (if replyAccepted ct (w.answer s
            ⟨"POST", target, some (createHostPayload (w.now s) hostname domain ip "1")⟩).1 then
          (w.answer (w.answer s
            ⟨"POST", target, some (createHostPayload (w.now s) hostname domain ip "1")⟩).2
            reconfigureRequest).2
        else (w.answer s
          ⟨"POST", target, some (createHostPayload (w.now s) hostname domain ip "1")⟩).2) ∧
      ((UpdateDNSRecord w ct s record hostname domain ip).val = .ok () ↔
        replyAccepted ct (w.answer s
            ⟨"POST", target, some (createHostPayload (w.now s) hostname domain ip "1")⟩).1 =
            true ∧
          replyAccepted ct (w.answer (w.answer s
            ⟨"POST", target, some (createHostPayload (w.now s) hostname domain ip "1")⟩).2
              reconfigureRequest).1 = true) := by
  unfold UpdateDNSRecord
  rw [makeAPIRequest_post w s _ _ _ htarget]
  cases hacc : replyAccepted ct (w.answer s
      ⟨"POST", target, some (createHostPayload (w.now s) hostname domain ip "1")⟩).1 with
  | false =>
    rcases (replyAccepted_false_iff ct _).1 hacc with ⟨e, he⟩ | ⟨body, e, hb, hp⟩
    · simp [he]
    · simp [hb, hp]
  | true =>
    obtain ⟨body, hb, hp⟩ := (replyAccepted_iff ct _).1 hacc
    obtain ⟨ht, hst, hv⟩ := ReconfigureService_eq w ct
      (w.answer s ⟨"POST", target,
        some (createHostPayload (w.now s) hostname domain ip "1")⟩).2
    simp only [hb, hp, ht, hst]
    cases hr : (ReconfigureService w ct (w.answer s
        ⟨"POST", target, some (createHostPayload (w.now s) hostname domain ip "1")⟩).2).val with
    | error e =>
      have : ¬ replyAccepted ct (w.answer (w.answer s
          ⟨"POST", target, some (createHostPayload (w.now s) hostname domain ip "1")⟩).2
          reconfigureRequest).1 = true := by
        intro h
        rw [hv.2 h] at hr
        cases hr
      simp [this]
    | ok u =>
      have := hv.1 hr
      simp [this]

theorem UpdateDNSRecord_unsent {σ : Type} (w : World σ) (ct : CaseTable) (s : σ)
    (record : HostOverride) (hostname domain ip : String)
    (htarget : requestTarget w ("/api/unbound/settings/setHostOverride/" ++ record.UUID) =
      none) :
    UpdateDNSRecord w ct s record hostname domain ip =
      ⟨.error (.wrap "error updating DNS"
        (.invalidURL ("/api/unbound/settings/setHostOverride/" ++ record.UUID))), s, []⟩ := by
  unfold UpdateDNSRecord makeAPIRequest
  rw [if_pos (Or.inr rfl)]
  simp only [htarget]

theorem UpdateDNSRecord_eq {σ : Type} (w : World σ) (ct : CaseTable) (s : σ)
    (record : HostOverride) (hostname domain ip : String)
    (hplain : record.UUID.data.all isUnreserved = true) :
    (UpdateDNSRecord w ct s record hostname domain ip).trace =
        (if replyAccepted ct
            (w.answer s (updateRequest (w.now s) record.UUID hostname domain ip)).1 then
          [updateRequest (w.now s) record.UUID hostname domain ip, reconfigureRequest]
        else [updateRequest (w.now s) record.UUID hostname domain ip]) ∧
      (UpdateDNSRecord w ct s record hostname domain ip).state =
        (if replyAccepted ct
            (w.answer s (updateRequest (w.now s) record.UUID hostname domain ip)).1 then
          (w.answer (w.answer s (updateRequest (w.now s) record.UUID hostname domain ip)).2
            reconfigureRequest).2
        else (w.answer s (updateRequest (w.now s) record.UUID hostname domain ip)).2) ∧
      ((UpdateDNSRecord w ct s record hostname domain ip).val = .ok () ↔
        replyAccepted ct
            (w.answer s (updateRequest (w.now s) record.UUID hostname domain ip)).1 = true ∧
          replyAccepted ct
            (w.answer (w.answer s (updateRequest (w.now s) record.UUID hostname domain ip)).2
              reconfigureRequest).1 = true) :=
  UpdateDNSRecord_sent w ct s record hostname domain ip _
    (requestTarget_setHostOverride w record.UUID hplain)

/-! ### Lookup -/

theorem GetExistingDNSRecord_trace {σ : Type} (w : World σ) (ct : CaseTable) (s : σ)
    (hostname domain : String) :
    (GetExistingDNSRecord w ct s hostname domain).trace = [searchRequest] ∧
      (GetExistingDNSRecord w ct s hostname domain).state = (w.answer s searchRequest).2 := by
  unfold GetExistingDNSRecord
  rw [makeAPIRequest_get w s _ _ _ (requestTarget_search w)]
  simp only [searchRequest]
  cases replyValue (w.answer s ⟨"GET", "/api/unbound/settings/search_host_override", none⟩).1 with
  | error e => simp
  | ok body =>
    dsimp only
    cases unmarshalSearchResponse ct body with
    | none => simp
    | some sr => simp

theorem GetExistingDNSRecord_val {σ : Type} (w : World σ) (ct : CaseTable) (s : σ)
    (hostname domain : String) (body : Option Json)
    (hreply : (w.answer s searchRequest).1 = .response 200 body) :
    (GetExistingDNSRecord w ct s hostname domain).val =
      match unmarshalSearchResponse ct body with
      | none => .error (.wrap "failed to parse DNS records response" .parse)
      | some sr => .ok (scanRows ct hostname domain sr.Rows) := by
  unfold GetExistingDNSRecord
  rw [makeAPIRequest_get w s _ _ _ (requestTarget_search w)]
  simp only [searchRequest] at hreply
  simp only [hreply, replyValue]
  cases h : unmarshalSearchResponse ct body with
  | none => simp [h]
  | some sr => simp [h]

theorem scanRows_cons (ct : CaseTable) (hostname domain : String) (r : HostOverride)
    (rest : List HostOverride) :
    scanRows ct hostname domain (r :: rest) =
      if rowMatches ct hostname domain r = true then some r
      else scanRows ct hostname domain rest := rfl

theorem scanRows_none_iff (ct : CaseTable) (hostname domain : String)
    (rows : List HostOverride) :
    scanRows ct hostname domain rows = none ↔
      ∀ r ∈ rows, rowMatches ct hostname domain r = false := by
  induction rows with
  | nil => simp [scanRows]
  | cons r rest ih =>
    rw [scanRows_cons]
    by_cases h : rowMatches ct hostname domain r = true
    · simp [h]
    · rw [if_neg h, ih]
      simp [h]

theorem scanRows_some_iff (ct : CaseTable) (hostname domain : String)
    (rows : List HostOverride) (r : HostOverride) :
    scanRows ct hostname domain rows = some r ↔
      ∃ i : Nat, rows[i]? = some r ∧ rowMatches ct hostname domain r = true ∧
        ∀ (j : Nat) (r' : HostOverride), j < i → rows[j]? = some r' →
          rowMatches ct hostname domain r' = false := by
  induction rows with
  | nil => simp [scanRows]
  | cons x rest ih =>
    rw [scanRows_cons]
    by_cases h : rowMatches ct hostname domain x = true
    · rw [if_pos h]
      constructor
      · intro hx
        cases hx
        exact ⟨0, by simp, h, by intro j r' hj; omega⟩
      · rintro ⟨i, hi, hm, hbefore⟩
        cases i with
        | zero => simpa using hi
        | succ i =>
          have := hbefore 0 x (by omega) (by simp)
          rw [h] at this
          cases this
    · have h' : rowMatches ct hostname domain x = false := by simpa using h
      rw [if_neg h, ih]
      constructor
      · rintro ⟨i, hi, hm, hbefore⟩
        refine ⟨i + 1, by simpa using hi, hm, ?_⟩
        intro j r' hj hr'
        cases j with
        | zero =>
          simp at hr'
          subst hr'
          exact h'
        | succ j => exact hbefore j r' (by omega) (by simpa using hr')
      · rintro ⟨i, hi, hm, hbefore⟩
        cases i with
        | zero =>
          simp at hi
          subst hi
          rw [h'] at hm
          cases hm
        | succ i =>
          refine ⟨i, by simpa using hi, hm, ?_⟩
          intro j r' hj hr'
          exact hbefore (j + 1) r' (by omega) (by simpa using hr')

/-! ### The decision of `updateDNSForHostname` -/

theorem updateDNSForHostname_of_error {σ : Type} (w : World σ) (ct : CaseTable) (s : σ)
    (hostname domain ip : String) (e : Error)
    (h : (GetExistingDNSRecord w ct s hostname domain).val = .error e) :
    updateDNSForHostname w ct s hostname domain ip =
      ⟨.failed (.wrap "error getting existing DNS record" e), (w.answer s searchRequest).2,
        [searchRequest]⟩ := by
  obtain ⟨ht, hs⟩ := GetExistingDNSRecord_trace w ct s hostname domain
  unfold updateDNSForHostname
  simp only [h, ht, hs]

theorem updateDNSForHostname_of_same {σ : Type} (w : World σ) (ct : CaseTable) (s : σ)
    (hostname domain ip : String) (record : HostOverride)
    (h : (GetExistingDNSRecord w ct s hostname domain).val = .ok (some record))
    (hip : record.Server = ip) :
    updateDNSForHostname w ct s hostname domain ip =
      ⟨.unchanged, (w.answer s searchRequest).2, [searchRequest]⟩ := by
  obtain ⟨ht, hs⟩ := GetExistingDNSRecord_trace w ct s hostname domain
  unfold updateDNSForHostname
  simp only [h, ht, hs, hip, if_true]

theorem updateDNSForHostname_of_sentinel {σ : Type} (w : World σ) (ct : CaseTable) (s : σ)
    (hostname domain : String)
    (h : (GetExistingDNSRecord w ct s hostname domain).val = .ok none) :
    updateDNSForHostname w ct s hostname domain "none" =
      ⟨.unchanged, (w.answer s searchRequest).2, [searchRequest]⟩ := by
  obtain ⟨ht, hs⟩ := GetExistingDNSRecord_trace w ct s hostname domain
  unfold updateDNSForHostname
  simp only [h, ht, hs, if_true]

theorem updateDNSForHostname_of_differs {σ : Type} (w : World σ) (ct : CaseTable) (s : σ)
    (hostname domain ip : String) (record : HostOverride)
    (h : (GetExistingDNSRecord w ct s hostname domain).val = .ok (some record))
    (hip : record.Server ≠ ip) :
    updateDNSForHostname w ct s hostname domain ip =
      ⟨(match (UpdateDNSRecord w ct (w.answer s searchRequest).2 record hostname domain ip).val with
        | .error e => .failed (.wrap "error updating DNS record" e)
        | .ok _ => .updated record.Server ip),
        (UpdateDNSRecord w ct (w.answer s searchRequest).2 record hostname domain ip).state,
        searchRequest ::
          (UpdateDNSRecord w ct (w.answer s searchRequest).2 record hostname domain ip).trace⟩ := by
  obtain ⟨ht, hs⟩ := GetExistingDNSRecord_trace w ct s hostname domain
  unfold updateDNSForHostname
  simp only [h, ht, hs, if_neg hip]
  cases (UpdateDNSRecord w ct (w.answer s searchRequest).2 record hostname domain ip).val with
  | error e => simp
  | ok u => simp

theorem updateDNSForHostname_of_absent {σ : Type} (w : World σ) (ct : CaseTable) (s : σ)
    (hostname domain ip : String)
    (h : (GetExistingDNSRecord w ct s hostname domain).val = .ok none)
    (hip : ip ≠ "none") :
    updateDNSForHostname w ct s hostname domain ip =
      ⟨(match (CreateDNSRecord w ct (w.answer s searchRequest).2 hostname domain ip).val with
        | .error e => .failed (.wrap "error creating DNS record" e)
        | .ok _ => .created ip),
        (CreateDNSRecord w ct (w.answer s searchRequest).2 hostname domain ip).state,
        searchRequest ::
          (CreateDNSRecord w ct (w.answer s searchRequest).2 hostname domain ip).trace⟩ := by
  obtain ⟨ht, hs⟩ := GetExistingDNSRecord_trace w ct s hostname domain
  have hip' : ¬ "none" = ip := fun h' => hip h'.symm
  unfold updateDNSForHostname
  simp only [h, ht, hs, if_neg hip']
  cases (CreateDNSRecord w ct (w.answer s searchRequest).2 hostname domain ip).val with
  | error e => simp
  | ok u => simp

/-! ### Telling the requests apart -/

theorem setHostOverride_isPrefixOf (u : String) :
    "/api/unbound/settings/setHostOverride/".data.isPrefixOf
      ("/api/unbound/settings/setHostOverride/" ++ u).data = true := by
  rw [String.data_append, List.isPrefixOf_iff_prefix]
  exact List.prefix_append _ _

theorem setHostOverride_ne_add (u : String) :
    ("/api/unbound/settings/setHostOverride/" ++ u ==
      "/api/unbound/settings/addHostOverride") = false := by
  rw [beq_eq_false_iff_ne]
  intro h
  have h2 := congrArg (fun t : String => t.data[22]?) h
  simp only [String.data_append] at h2
  have h3 : (some 's' : Option Char) = some 'a' := h2
  cases h3

theorem setHostOverride_ne_reconfigure (u : String) :
    ("/api/unbound/settings/setHostOverride/" ++ u ==
      "/api/unbound/service/reconfigure") = false := by
  rw [beq_eq_false_iff_ne]
  intro h
  have h2 := congrArg (fun t : String => t.data[15]?) h
  simp only [String.data_append] at h2
  have h3 : (some 't' : Option Char) = some 'r' := h2
  cases h3

theorem updateRequest_kind (now uuid hostname domain ip : String) :
    isUpdate (updateRequest now uuid hostname domain ip) = true ∧
      isCreate (updateRequest now uuid hostname domain ip) = false ∧
      isReconfigure (updateRequest now uuid hostname domain ip) = false := by
  refine ⟨?_, ?_, ?_⟩
  · simp [isUpdate, updateRequest, setHostOverride_isPrefixOf]
  · simp only [isCreate, updateRequest, setHostOverride_ne_add, Bool.and_false]
  · simp only [isReconfigure, updateRequest, setHostOverride_ne_reconfigure, Bool.and_false]

theorem createRequest_kind (now hostname domain ip : String) :
    isCreate (createRequest now hostname domain ip) = true ∧
      isUpdate (createRequest now hostname domain ip) = false ∧
      isReconfigure (createRequest now hostname domain ip) = false :=
  ⟨rfl, rfl, rfl⟩

theorem reconfigureRequest_kind :
    isReconfigure reconfigureRequest = true ∧ isCreate reconfigureRequest = false ∧
      isUpdate reconfigureRequest = false :=
  ⟨rfl, rfl, rfl⟩

theorem searchRequest_kind :
    isCreate searchRequest = false ∧ isUpdate searchRequest = false ∧
      isReconfigure searchRequest = false :=
  ⟨rfl, rfl, rfl⟩

/-! ### When a mutation is issued -/

theorem updateDNSForHostname_mutation_iff {σ : Type} (w : World σ) (ct : CaseTable) (s : σ)
    (hostname domain ip : String) (existing : Option HostOverride)
    (h : (GetExistingDNSRecord w ct s hostname domain).val = .ok existing)
    (hplain : ∀ r, existing = some r → r.UUID.data.all isUnreserved = true) :
    (updateDNSForHostname w ct s hostname domain ip).trace.any
        (fun r => isCreate r || isUpdate r) = true ↔
      (existing = none ∧ ip ≠ "none") ∨ ∃ r, existing = some r ∧ r.Server ≠ ip := by
  cases existing with
  | none =>
    by_cases hip : ip = "none"
    · subst hip
      rw [updateDNSForHostname_of_sentinel w ct s hostname domain h]
      simp [searchRequest_kind]
    · rw [updateDNSForHostname_of_absent w ct s hostname domain ip h hip]
      obtain ⟨ht, -, -⟩ := CreateDNSRecord_eq w ct (w.answer s searchRequest).2 hostname domain ip
      simp only [ht]
      split <;> simp [createRequest_kind, hip]
  | some record =>
    by_cases hip : record.Server = ip
    · rw [updateDNSForHostname_of_same w ct s hostname domain ip record h hip]
      simp [searchRequest_kind, hip]
    · rw [updateDNSForHostname_of_differs w ct s hostname domain ip record h hip]
      obtain ⟨ht, -, -⟩ :=
        UpdateDNSRecord_eq w ct (w.answer s searchRequest).2 record hostname domain ip
          (hplain record rfl)
      simp only [ht]
      split <;> simp [updateRequest_kind, hip]

/-- C1, the code at the failing input: against an empty remote store the lookup for
"nas"/"home.lan" succeeds and finds no record, yet with the target IP "none" the call issues
the lookup only (no create or update request) and returns nil, because the target IP
coincides with the placeholder used for a missing record. -/
theorem updateDNSForHostname_sentinel_no_mutation :
    (GetExistingDNSRecord (storeWorld openStore) asciiTable [] "nas" "home.lan").val = .ok none ∧
      (updateDNSForHostname (storeWorld openStore) asciiTable [] "nas" "home.lan" "none").trace =
        [searchRequest] ∧
      (updateDNSForHostname (storeWorld openStore) asciiTable [] "nas" "home.lan" "none").trace.any
        (fun r => isCreate r || isUpdate r) = false ∧
      (updateDNSForHostname (storeWorld openStore) asciiTable [] "nas" "home.lan" "none").val.err =
        none :=
  ⟨rfl, rfl, rfl, rfl⟩

theorem updateDNSForHostname_create_path {σ : Type} (w : World σ) (ct : CaseTable) (s : σ)
    (hostname domain ip : String)
    (habsent : (GetExistingDNSRecord w ct s hostname domain).val = .ok none)
    (hip : ip ≠ "none")
    (hcreate : replyAccepted ct (w.answer (w.answer s searchRequest).2
      (createRequest (w.now (w.answer s searchRequest).2) hostname domain ip)).1 = true)
    (hreconf : replyAccepted ct (w.answer (w.answer (w.answer s searchRequest).2
      (createRequest (w.now (w.answer s searchRequest).2) hostname domain ip)).2
      reconfigureRequest).1 = true) :
    updateDNSForHostname w ct s hostname domain ip =
      ⟨.created ip,
        (w.answer (w.answer (w.answer s searchRequest).2
          (createRequest (w.now (w.answer s searchRequest).2) hostname domain ip)).2
          reconfigureRequest).2,
        [searchRequest, createRequest (w.now (w.answer s searchRequest).2) hostname domain ip,
          reconfigureRequest]⟩ := by
  rw [updateDNSForHostname_of_absent w ct s hostname domain ip habsent hip]
  obtain ⟨ht, hst, hv⟩ := CreateDNSRecord_eq w ct (w.answer s searchRequest).2 hostname domain ip
  rw [ht, hst, hv.2 ⟨hcreate, hreconf⟩, if_pos hcreate, if_pos hcreate]

/-- C2, the code at the failing input: against an empty remote store that accepts every
write (the create request for "nas"/"home.lan" with server "none" would be accepted), the
call with target IP "none" ends as unchanged, not as created: it issues no create and no
reconfigure request and leaves the store empty. -/
theorem updateDNSForHostname_sentinel_not_created :
    replyAccepted asciiTable ((storeWorld openStore).answer []
        (createRequest "2024-01-01 00:00:00" "nas" "home.lan" "none")).1 = true ∧
      (updateDNSForHostname (storeWorld openStore) asciiTable [] "nas" "home.lan" "none").val =
        .unchanged ∧
      (updateDNSForHostname (storeWorld openStore) asciiTable [] "nas" "home.lan" "none").trace.countP
        isCreate = 0 ∧
      (updateDNSForHostname (storeWorld openStore) asciiTable [] "nas" "home.lan" "none").trace.countP
        isReconfigure = 0 ∧
      (updateDNSForHostname (storeWorld openStore) asciiTable [] "nas" "home.lan" "none").state = [] :=
  ⟨rfl, rfl, rfl, rfl, rfl⟩

theorem updateDNSForHostname_of_unsent {σ : Type} (w : World σ) (ct : CaseTable) (s : σ)
    (hostname domain ip : String) (record : HostOverride)
    (h : (GetExistingDNSRecord w ct s hostname domain).val = .ok (some record))
    (hip : record.Server ≠ ip)
    (htarget : requestTarget w ("/api/unbound/settings/setHostOverride/" ++ record.UUID) =
      none) :
    updateDNSForHostname w ct s hostname domain ip =
      ⟨.failed (.wrap "error updating DNS record" (.wrap "error updating DNS"
        (.invalidURL ("/api/unbound/settings/setHostOverride/" ++ record.UUID)))),
        (w.answer s searchRequest).2, [searchRequest]⟩ := by
  rw [updateDNSForHostname_of_differs w ct s hostname domain ip record h hip,
    UpdateDNSRecord_unsent w ct _ record hostname domain ip htarget]

/-- Counterexample to C3: the store holds the record "nas"/"home.lan" at 10.0.0.2 under the
identifier `%zz` and would accept the update request for it and the reconfigure request.  The
lookup finds the record and its server differs from the target 10.0.0.1, but the URL
`.../setHostOverride/%zz` is invalid (a `%` without two hexadecimal digits), so the HTTP
client sends nothing: the call has issued the lookup only, no update and no reconfigure
request, and returns an error. -/
theorem updateDNSForHostname_update_invalid_uuid :
    (GetExistingDNSRecord (storeWorld openStore) asciiTable
        [⟨"%zz", "nas", "home.lan", "10.0.0.2", "", "1"⟩] "nas" "home.lan").val =
        .ok (some ⟨"%zz", "nas", "home.lan", "10.0.0.2", "", "1"⟩) ∧
      replyAccepted asciiTable ((storeWorld openStore).answer
        [⟨"%zz", "nas", "home.lan", "10.0.0.2", "", "1"⟩]
        (updateRequest "2024-01-01 00:00:00" "%zz" "nas" "home.lan" "10.0.0.1")).1 = true ∧
      replyAccepted asciiTable ((storeWorld openStore).answer
        ((storeWorld openStore).answer [⟨"%zz", "nas", "home.lan", "10.0.0.2", "", "1"⟩]
          (updateRequest "2024-01-01 00:00:00" "%zz" "nas" "home.lan" "10.0.0.1")).2
        reconfigureRequest).1 = true ∧
      (updateDNSForHostname (storeWorld openStore) asciiTable
        [⟨"%zz", "nas", "home.lan", "10.0.0.2", "", "1"⟩] "nas" "home.lan" "10.0.0.1").trace =
        [searchRequest] ∧
      (updateDNSForHostname (storeWorld openStore) asciiTable
        [⟨"%zz", "nas", "home.lan", "10.0.0.2", "", "1"⟩] "nas" "home.lan" "10.0.0.1").val.err =
        some (.wrap "error updating DNS record" (.wrap "error updating DNS"
          (.invalidURL "/api/unbound/settings/setHostOverride/%zz"))) :=
  ⟨rfl, rfl, rfl, rfl, rfl⟩

/-- C3 as amended: when the lookup finds a record whose server differs from the target IP,
whose UUID consists of unreserved characters (ASCII letters, digits, `-`, `_`, `.`, `~`), and
the remote accepts the update and the reconfigure request, `updateDNSForHostname` issues,
after the lookup, exactly one update request, a POST to
`/api/unbound/settings/setHostOverride/` followed by the record's UUID, then exactly one
reconfigure request and no create request, and ends as updated (old IP, new IP), that is
with a nil error. -/
theorem updateDNSForHostname_update_path {σ : Type} (w : World σ) (ct : CaseTable) (s : σ)
    (hostname domain ip : String) (record : HostOverride)
    (hfound : (GetExistingDNSRecord w ct s hostname domain).val = .ok (some record))
    (hdiff : record.Server ≠ ip)
    (hplain : record.UUID.data.all isUnreserved = true)
    (hupdate : replyAccepted ct (w.answer (w.answer s searchRequest).2
      (updateRequest (w.now (w.answer s searchRequest).2) record.UUID hostname domain ip)).1 = true)
    (hreconf : replyAccepted ct (w.answer (w.answer (w.answer s searchRequest).2
      (updateRequest (w.now (w.answer s searchRequest).2) record.UUID hostname domain ip)).2
      reconfigureRequest).1 = true) :
    (updateDNSForHostname w ct s hostname domain ip).trace =
        [searchRequest,
          updateRequest (w.now (w.answer s searchRequest).2) record.UUID hostname domain ip,
          reconfigureRequest] ∧
      (updateRequest (w.now (w.answer s searchRequest).2) record.UUID hostname domain ip).method =
        "POST" ∧
      (updateRequest (w.now (w.answer s searchRequest).2) record.UUID hostname domain ip).endpoint =
        "/api/unbound/settings/setHostOverride/" ++ record.UUID ∧
      (updateDNSForHostname w ct s hostname domain ip).trace.countP isUpdate = 1 ∧
      (updateDNSForHostname w ct s hostname domain ip).trace.countP isReconfigure = 1 ∧
      (updateDNSForHostname w ct s hostname domain ip).trace.countP isCreate = 0 ∧
      (updateDNSForHostname w ct s hostname domain ip).val = .updated record.Server ip ∧
      (updateDNSForHostname w ct s hostname domain ip).val.err = none := by
  rw [updateDNSForHostname_of_differs w ct s hostname domain ip record hfound hdiff]
  obtain ⟨ht, -, hv⟩ :=
    UpdateDNSRecord_eq w ct (w.answer s searchRequest).2 record hostname domain ip hplain
  simp only [ht, hv.2 ⟨hupdate, hreconf⟩, if_pos hupdate]
  refine ⟨trivial, rfl, rfl, ?_, ?_, ?_, trivial, rfl⟩
  · simp [List.countP_cons, searchRequest_kind, updateRequest_kind, reconfigureRequest_kind]
  · simp [List.countP_cons, searchRequest_kind, updateRequest_kind, reconfigureRequest_kind]
  · simp [List.countP_cons, searchRequest_kind, updateRequest_kind, reconfigureRequest_kind]

/-- Witness of C3 as amended: the store holds "nas"/"home.lan" at 10.0.0.2 under the
identifier `u1` and the target is 10.0.0.1. -/
theorem updateDNSForHostname_update_path_witness :
    (updateDNSForHostname (storeWorld openStore) asciiTable
        [⟨"u1", "NAS", "home.lan", "10.0.0.2", "", "0"⟩] "nas" "home.lan" "10.0.0.1").trace =
        [searchRequest, updateRequest "2024-01-01 00:00:00" "u1" "nas" "home.lan" "10.0.0.1",
          reconfigureRequest] ∧
      (updateDNSForHostname (storeWorld openStore) asciiTable
        [⟨"u1", "NAS", "home.lan", "10.0.0.2", "", "0"⟩] "nas" "home.lan" "10.0.0.1").val =
        .updated "10.0.0.2" "10.0.0.1" :=
  have h := updateDNSForHostname_update_path (storeWorld openStore) asciiTable
    [⟨"u1", "NAS", "home.lan", "10.0.0.2", "", "0"⟩] "nas" "home.lan" "10.0.0.1"
    ⟨"u1", "NAS", "home.lan", "10.0.0.2", "", "0"⟩ rfl (by decide) rfl rfl rfl
  ⟨h.1, h.2.2.2.2.2.2.1⟩

/-- C4: when `GetExistingDNSRecord` returns an error, `updateDNSForHostname` returns an error
wrapping it and has issued nothing but the lookup itself: no create, no update and no
reconfigure request. -/
theorem updateDNSForHostname_lookup_error {σ : Type} (w : World σ) (ct : CaseTable) (s : σ)
    (hostname domain ip : String) (e : Error)
    (hfail : (GetExistingDNSRecord w ct s hostname domain).val = .error e) :
    (updateDNSForHostname w ct s hostname domain ip).val.err =
        some (.wrap "error getting existing DNS record" e) ∧
      (updateDNSForHostname w ct s hostname domain ip).trace = [searchRequest] ∧
      (updateDNSForHostname w ct s hostname domain ip).trace.countP isCreate = 0 ∧
      (updateDNSForHostname w ct s hostname domain ip).trace.countP isUpdate = 0 ∧
      (updateDNSForHostname w ct s hostname domain ip).trace.countP isReconfigure = 0 := by
  rw [updateDNSForHostname_of_error w ct s hostname domain ip e hfail]
  exact ⟨rfl, rfl, rfl, rfl, rfl⟩

/-- Witness of C4: the remote cannot be reached. -/
theorem updateDNSForHostname_lookup_error_witness :
    (updateDNSForHostname downWorld asciiTable () "nas" "home.lan" "10.0.0.1").val.err =
        some (.wrap "error getting existing DNS record"
          (.wrap "failed to fetch existing DNS records" (.transport "connection refused"))) ∧
      (updateDNSForHostname downWorld asciiTable () "nas" "home.lan" "10.0.0.1").trace =
        [searchRequest] :=
  have h := updateDNSForHostname_lookup_error downWorld asciiTable () "nas" "home.lan" "10.0.0.1"
    (.wrap "failed to fetch existing DNS records" (.transport "connection refused")) rfl
  ⟨h.1, h.2.1⟩

/-- C9: for `CreateDNSRecord` and `UpdateDNSRecord` alike, the mutation request is issued
first; the reconfigure request follows, exactly once, when the reply to the mutation was
accepted (status 200 and a body that `parseAPIResponse` lets pass) and is not issued
otherwise; nothing is issued after it; and the call returns nil exactly when both the
mutation and the reconfigure were accepted.  The update request goes to the request target
the HTTP client derives from `/api/unbound/settings/setHostOverride/` followed by the UUID;
when that URL is invalid the mutation request has failed before being sent: nothing is
issued, no reconfigure either, and the call returns an error. -/
theorem mutation_then_reconfigure {σ : Type} (w : World σ) (ct : CaseTable) (s : σ)
    (record : HostOverride) (hostname domain ip : String) :
    ((CreateDNSRecord w ct s hostname domain ip).trace =
        (if replyAccepted ct (w.answer s (createRequest (w.now s) hostname domain ip)).1 then
          [createRequest (w.now s) hostname domain ip, reconfigureRequest]
        else [createRequest (w.now s) hostname domain ip]) ∧
      ((CreateDNSRecord w ct s hostname domain ip).val = .ok () ↔
        replyAccepted ct (w.answer s (createRequest (w.now s) hostname domain ip)).1 = true ∧
          replyAccepted ct (w.answer (w.answer s (createRequest (w.now s) hostname domain ip)).2
            reconfigureRequest).1 = true)) ∧
    (match requestTarget w ("/api/unbound/settings/setHostOverride/" ++ record.UUID) with
      | none =>
        (UpdateDNSRecord w ct s record hostname domain ip).trace = [] ∧
          (UpdateDNSRecord w ct s record hostname domain ip).val ≠ .ok ()
      | some target =>
        (UpdateDNSRecord w ct s record hostname domain ip).trace =
            (if replyAccepted ct (w.answer s
                ⟨"POST", target, some (createHostPayload (w.now s) hostname domain ip "1")⟩).1 then
              [⟨"POST", target, some (createHostPayload (w.now s) hostname domain ip "1")⟩,
                reconfigureRequest]
            else [⟨"POST", target, some (createHostPayload (w.now s) hostname domain ip "1")⟩]) ∧
          ((UpdateDNSRecord w ct s record hostname domain ip).val = .ok () ↔
            replyAccepted ct (w.answer s
                ⟨"POST", target, some (createHostPayload (w.now s) hostname domain ip "1")⟩).1 =
                true ∧
              replyAccepted ct (w.answer (w.answer s
                ⟨"POST", target, some (createHostPayload (w.now s) hostname domain ip "1")⟩).2
                  reconfigureRequest).1 = true)) ∧
    (record.UUID.data.all isUnreserved = true →
      requestTarget w ("/api/unbound/settings/setHostOverride/" ++ record.UUID) =
        some ("/api/unbound/settings/setHostOverride/" ++ record.UUID)) := by
  refine ⟨⟨(CreateDNSRecord_eq w ct s hostname domain ip).1,
      (CreateDNSRecord_eq w ct s hostname domain ip).2.2⟩, ?_,
    requestTarget_setHostOverride w record.UUID⟩
  split
  · rename_i h
    rw [UpdateDNSRecord_unsent w ct s record hostname domain ip h]
    exact ⟨rfl, fun h' => by cases h'⟩
  · rename_i target h
    exact ⟨(UpdateDNSRecord_sent w ct s record hostname domain ip target h).1,
      (UpdateDNSRecord_sent w ct s record hostname domain ip target h).2.2⟩

/-! ### The loop over the hostnames -/

theorem stateBefore_zero {σ : Type} (w : World σ) (ct : CaseTable) (domain ip : String)
    (hs : List String) (s : σ) : stateBefore w ct domain ip hs s 0 = s := by
  simp [stateBefore]

theorem stateBefore_cons {σ : Type} (w : World σ) (ct : CaseTable) (domain ip : String)
    (h : String) (t : List String) (s : σ) (i : Nat) :
    stateBefore w ct domain ip (h :: t) s (i + 1) =
      stateBefore w ct domain ip t (updateDNSForHostname w ct s h domain ip).state i := by
  simp [stateBefore]

theorem updateDNSLoop_spec {σ : Type} (w : World σ) (ct : CaseTable) (domain ip : String)
    (hs : List String) (s : σ) :
    (updateDNSLoop w ct domain ip hs s).val.length = hs.length ∧
      (∀ (i : Nat) (h : String), hs[i]? = some h →
        (updateDNSLoop w ct domain ip hs s).val[i]? =
          some (updateDNSForHostname w ct (stateBefore w ct domain ip hs s i) h domain ip).val) ∧
      (updateDNSLoop w ct domain ip hs s).trace =
        ((List.range hs.length).map (fun i =>
          (updateDNSForHostname w ct (stateBefore w ct domain ip hs s i) (hs.getD i "")
            domain ip).trace)).flatten ∧
      (updateDNSLoop w ct domain ip hs s).state = stateBefore w ct domain ip hs s hs.length := by
  induction hs generalizing s with
  | nil => simp [updateDNSLoop, stateBefore]
  | cons h t ih =>
    obtain ⟨ih1, ih2, ih3, ih4⟩ := ih (updateDNSForHostname w ct s h domain ip).state
    refine ⟨?_, ?_, ?_, ?_⟩
    · simp [updateDNSLoop, ih1]
    · intro i x hx
      cases i with
      | zero =>
        simp at hx
        subst hx
        simp [updateDNSLoop, stateBefore_zero]
      | succ i =>
        rw [stateBefore_cons]
        simp only [List.getElem?_cons_succ] at hx
        simpa [updateDNSLoop] using ih2 i x hx
    · simp only [updateDNSLoop, List.length_cons, List.range_succ_eq_map, List.map_cons,
        List.map_map, List.flatten_cons, stateBefore_zero, ih3]
      congr 1
    · rw [List.length_cons, stateBefore_cons]
      simpa [updateDNSLoop] using ih4

/-- C5: when `updateDNS` has its IP and its hostname list, it calls `updateDNSForHostname`
once for every element of the list, in list order: there is one outcome per hostname, the
outcome at position `i` is that of the call for hostname `i` made in the remote state left by
the calls for the hostnames before it, and the requests issued are exactly those of these
calls, one call after the other.  Whether an earlier call failed plays no part: the call for
hostname `i` depends on the earlier ones only through the remote state. -/
theorem updateDNS_runs_every_hostname {σ : Type} (w : World σ) (ct : CaseTable) (m : Machine)
    (config : Config) (s : σ) (ip : String) (hs : List String)
    (hip : getCurrentIP m config = .ok ip)
    (hhs : getHostnamesToUse m config = .ok hs) :
    (updateDNS w ct m config s).val.length = hs.length ∧
      (∀ (i : Nat) (h : String), hs[i]? = some h →
        (updateDNS w ct m config s).val[i]? =
          some (updateDNSForHostname w ct (stateBefore w ct config.Domain ip hs s i) h
            config.Domain ip).val) ∧
      (updateDNS w ct m config s).trace =
        ((List.range hs.length).map (fun i =>
          (updateDNSForHostname w ct (stateBefore w ct config.Domain ip hs s i) (hs.getD i "")
            config.Domain ip).trace)).flatten ∧
      (updateDNS w ct m config s).state = stateBefore w ct config.Domain ip hs s hs.length := by
  unfold updateDNS
  simp only [hip, hhs]
  exact updateDNSLoop_spec w ct config.Domain ip hs s

/-- Witness of C5: three hostnames against a store that refuses the write for "b": "a" and
"c" are created although "b" failed in between. -/
theorem updateDNS_runs_every_hostname_witness :
    (updateDNS (storeWorld pickyStore) asciiTable ⟨.ok "box", .ok "10.0.0.9"⟩
        ⟨"router", "key", "secret", "home.lan", ["a", "b", "c"], "10.0.0.1"⟩ []).val =
        [.created "10.0.0.1",
          .failed (.wrap "error creating DNS record" (.apiFailed (some failedBody))),
          .created "10.0.0.1"] ∧
      (updateDNS (storeWorld pickyStore) asciiTable ⟨.ok "box", .ok "10.0.0.9"⟩
        ⟨"router", "key", "secret", "home.lan", ["a", "b", "c"], "10.0.0.1"⟩ []).val.length =
        3 :=
  ⟨rfl,
    (updateDNS_runs_every_hostname (storeWorld pickyStore) asciiTable ⟨.ok "box", .ok "10.0.0.9"⟩
      ⟨"router", "key", "secret", "home.lan", ["a", "b", "c"], "10.0.0.1"⟩ [] "10.0.0.1"
      ["a", "b", "c"] rfl rfl).1⟩

/-! ### Decoding of search responses -/

theorem decodeMembers_none_of_mem {α : Type} (set : α → String → Json → Option α)
    (k : String) (v : Json) (hset : ∀ a, set a k v = none) (members : List (String × Json))
    (hmem : (k, v) ∈ members) (a : α) : decodeMembers set a members = none := by
  induction members generalizing a with
  | nil => cases hmem
  | cons kv rest ih =>
    obtain ⟨k', v'⟩ := kv
    unfold decodeMembers
    rcases List.mem_cons.1 hmem with heq | hrest
    · cases heq
      simp [hset a]
    · cases hk : set a k' v' with
      | none => rfl
      | some a' => exact ih hrest a'

theorem SearchResponse.setField_rows_bad (ct : CaseTable) (r : SearchResponse) (k : String)
    (v : Json) (hk : selectsRows ct k = true) (hv : isListOrNull v = false) :
    SearchResponse.setField ct r k v = none := by
  unfold selectsRows at hk
  unfold SearchResponse.setField
  cases hf : fieldIndex ct ["status", "rows"] k with
  | none => simp [hf] at hk
  | some n =>
    cases n with
    | zero => simp [hf] at hk
    | succ n => cases v <;> simp_all [isListOrNull]

theorem SearchResponse.setField_other (ct : CaseTable) (r r' : SearchResponse) (k : String)
    (v : Json) (hk : selectsRows ct k = false)
    (h : SearchResponse.setField ct r k v = some r') : r'.Rows = r.Rows := by
  unfold selectsRows at hk
  unfold SearchResponse.setField at h
  cases hf : fieldIndex ct ["status", "rows"] k with
  | none =>
    simp only [hf] at h
    cases h
    rfl
  | some n =>
    cases n with
    | zero =>
      simp only [hf] at h
      cases ha : assignString v r.Status with
      | none => simp [ha] at h
      | some st =>
        simp only [ha, Option.map_some'] at h
        cases h
        rfl
    | succ n => simp [hf] at hk

theorem decodeMembers_rows_untouched (ct : CaseTable) (members : List (String × Json))
    (hno : ∀ kv ∈ members, selectsRows ct kv.1 = false) (r r' : SearchResponse)
    (h : decodeMembers (SearchResponse.setField ct) r members = some r') :
    r'.Rows = r.Rows := by
  induction members generalizing r with
  | nil =>
    simp only [decodeMembers] at h
    cases h
    rfl
  | cons kv rest ih =>
    obtain ⟨k, v⟩ := kv
    unfold decodeMembers at h
    cases hk : SearchResponse.setField ct r k v with
    | none => simp [hk] at h
    | some r1 =>
      simp only [hk] at h
      rw [ih (fun kv hkv => hno kv (List.mem_cons_of_mem _ hkv)) r1 h]
      exact SearchResponse.setField_other ct r r1 k v (hno (k, v) (List.mem_cons_self _ _)) hk

/-- C6: when the search is answered with status 200 and a body that decodes to a list of
rows, `GetExistingDNSRecord` returns without error; it returns no record exactly when no row
matches the requested hostname and domain on both fields under `strings.EqualFold`, and it
returns the record `r` exactly when `r` stands at the first position whose row matches.  A
row with hostname "Host" and domain "Example.com" matches the query "host"/"example.com". -/
theorem GetExistingDNSRecord_first_match {σ : Type} (w : World σ) (ct : CaseTable) (s : σ)
    (hostname domain : String) (body : Option Json) (sr : SearchResponse)
    (hreply : (w.answer s searchRequest).1 = .response 200 body)
    (hrows : unmarshalSearchResponse ct body = some sr) :
    (∃ found, (GetExistingDNSRecord w ct s hostname domain).val = .ok found ∧
      (found = none ↔ ∀ r ∈ sr.Rows, rowMatches ct hostname domain r = false) ∧
      (∀ r, found = some r ↔
        ∃ i : Nat, sr.Rows[i]? = some r ∧ rowMatches ct hostname domain r = true ∧
          ∀ (j : Nat) (r' : HostOverride), j < i → sr.Rows[j]? = some r' →
            rowMatches ct hostname domain r' = false)) ∧
      (∀ uuid server description enabled : String,
        rowMatches ct "host" "example.com"
          ⟨uuid, "Host", "Example.com", server, description, enabled⟩ = true) := by
  refine ⟨⟨scanRows ct hostname domain sr.Rows, ?_, ?_, ?_⟩, ?_⟩
  · rw [GetExistingDNSRecord_val w ct s hostname domain body hreply, hrows]
  · exact scanRows_none_iff ct hostname domain sr.Rows
  · intro r
    exact scanRows_some_iff ct hostname domain sr.Rows r
  · intro uuid server description enabled
    rfl

/-- Witness of C6: three rows, of which the second and the third match "host"/"example.com";
the second is returned. -/
theorem GetExistingDNSRecord_first_match_witness :
    (GetExistingDNSRecord (storeWorld openStore) asciiTable
        [⟨"u0", "other", "example.com", "10.0.0.7", "", "1"⟩,
          ⟨"u1", "Host", "Example.com", "10.0.0.2", "", "1"⟩,
          ⟨"u2", "HOST", "EXAMPLE.COM", "10.0.0.3", "", "1"⟩] "host" "example.com").val =
        .ok (some ⟨"u1", "Host", "Example.com", "10.0.0.2", "", "1"⟩) ∧
      ∀ uuid server description enabled : String,
        rowMatches asciiTable "host" "example.com"
          ⟨uuid, "Host", "Example.com", server, description, enabled⟩ = true :=
  ⟨rfl,
    (GetExistingDNSRecord_first_match (storeWorld openStore) asciiTable
      [⟨"u0", "other", "example.com", "10.0.0.7", "", "1"⟩,
        ⟨"u1", "Host", "Example.com", "10.0.0.2", "", "1"⟩,
        ⟨"u2", "HOST", "EXAMPLE.COM", "10.0.0.3", "", "1"⟩] "host" "example.com"
      (some (searchBody
        [⟨"u0", "other", "example.com", "10.0.0.7", "", "1"⟩,
          ⟨"u1", "Host", "Example.com", "10.0.0.2", "", "1"⟩,
          ⟨"u2", "HOST", "EXAMPLE.COM", "10.0.0.3", "", "1"⟩]))
      ⟨"", [⟨"u0", "other", "example.com", "10.0.0.7", "", "1"⟩,
          ⟨"u1", "Host", "Example.com", "10.0.0.2", "", "1"⟩,
          ⟨"u2", "HOST", "EXAMPLE.COM", "10.0.0.3", "", "1"⟩], []⟩ rfl rfl).2⟩

/-! ### Decoding of mutation responses -/

theorem decodeMembers_eq_none_iff {α : Type} (set : α → String → Json → Option α)
    (bad : String → Json → Bool) (hset : ∀ a k v, set a k v = none ↔ bad k v = true)
    (members : List (String × Json)) (a : α) :
    decodeMembers set a members = none ↔ ∃ kv ∈ members, bad kv.1 kv.2 = true := by
  induction members generalizing a with
  | nil => simp [decodeMembers]
  | cons kv rest ih =>
    obtain ⟨k, v⟩ := kv
    unfold decodeMembers
    cases hk : set a k v with
    | none =>
      have := (hset a k v).1 hk
      simp [this]
    | some a' =>
      have hnot : ¬ bad k v = true := fun hb => by
        rw [(hset a k v).2 hb] at hk
        cases hk
      simp [ih a', hnot]

theorem assignString_eq_none_iff (v : Json) (cur : String) :
    assignString v cur = none ↔ isStringOrNull v = false := by
  cases v <;> simp [assignString, isStringOrNull]

theorem Response.setField_eq_none_iff (ct : CaseTable) (r : Response) (k : String) (v : Json) :
    Response.setField ct r k v = none ↔
      (selectsResponseField ct k && !isStringOrNull v) = true := by
  unfold Response.setField selectsResponseField
  cases hf : fieldIndex ct ["status", "result"] k with
  | none => simp
  | some n =>
    cases n with
    | zero => simp [assignString_eq_none_iff]
    | succ n => simp [assignString_eq_none_iff]

theorem unmarshalResponse_obj_eq_none_iff (ct : CaseTable) (members : List (String × Json)) :
    unmarshalResponse ct (some (.obj members)) = none ↔
      ∃ kv ∈ members, selectsResponseField ct kv.1 = true ∧ isStringOrNull kv.2 = false := by
  have h := decodeMembers_eq_none_iff (Response.setField ct)
    (fun k v => selectsResponseField ct k && !isStringOrNull v)
    (fun a k v => Response.setField_eq_none_iff ct a k v) members {}
  simpa [unmarshalResponse] using h

/-- Counterexample to C7: the bodies `{}` and `{"result":"error"}` are accepted:
`parseAPIResponse` returns nil for both, whatever the case tables. -/
theorem parseAPIResponse_accepts_ambiguous :
    (∀ ct, parseAPIResponse ct (some (.obj [])) = .ok ()) ∧
      (∀ ct, parseAPIResponse ct (some (.obj [("result", .str "error")])) = .ok ()) :=
  ⟨fun _ => rfl, fun _ => rfl⟩

/-- C7 as amended: `parseAPIResponse` returns an error exactly when the body does not
unmarshal into a `Response` or the decoded `result` is "failed".  A body that is not JSON, or
whose top-level value is an array, a string, a number or a boolean, does not unmarshal; an
object fails to unmarshal exactly when a member decoded into `status` or `result` is neither
a string nor `null`; an object whose only member is `result` with a string value is rejected
exactly for the value "failed"; the empty object and `null` are accepted. -/
theorem parseAPIResponse_error_iff (ct : CaseTable) (body : Option Json) :
    ((∃ e, parseAPIResponse ct body = .error e) ↔
        unmarshalResponse ct body = none ∨
          ∃ r, unmarshalResponse ct body = some r ∧ r.Result = "failed") ∧
      parseAPIResponse ct none = .error .parse ∧
      (∀ members, unmarshalResponse ct (some (.obj members)) = none ↔
        ∃ kv ∈ members, selectsResponseField ct kv.1 = true ∧ isStringOrNull kv.2 = false) ∧
      (∀ items, parseAPIResponse ct (some (.arr items)) = .error .parse) ∧
      (∀ t, parseAPIResponse ct (some (.str t)) = .error .parse) ∧
      (∀ n, parseAPIResponse ct (some (.num n)) = .error .parse) ∧
      (∀ b, parseAPIResponse ct (some (.bool b)) = .error .parse) ∧
      (∀ v, parseAPIResponse ct (some (.obj [("result", .str v)])) = .ok () ↔ v ≠ "failed") ∧
      parseAPIResponse ct (some (.obj [])) = .ok () ∧
      parseAPIResponse ct (some .null) = .ok () := by
  refine ⟨?_, rfl, unmarshalResponse_obj_eq_none_iff ct, fun _ => rfl, fun _ => rfl, fun _ => rfl,
    fun _ => rfl, ?_, rfl, rfl⟩
  · unfold parseAPIResponse
    cases h : unmarshalResponse ct body with
    | none => simp
    | some r =>
      by_cases hr : r.Result = "failed" <;> simp [hr]
  · intro v
    have h : parseAPIResponse ct (some (.obj [("result", .str v)])) =
        if v = "failed" then .error (.apiFailed (some (.obj [("result", .str v)])))
        else .ok () := rfl
    rw [h]
    by_cases hv : v = "failed" <;> simp [hv]

/-- Counterexample to C8: a remote that answers the search (and everything else) with the
empty object `{}`: `GetExistingDNSRecord` returns "no record" without error, and
`updateDNSForHostname` goes on to issue a create request and ends as created. -/
theorem GetExistingDNSRecord_empty_object_no_error :
    (GetExistingDNSRecord emptyObjectWorld asciiTable () "nas" "home.lan").val = .ok none ∧
      (updateDNSForHostname emptyObjectWorld asciiTable () "nas" "home.lan" "10.0.0.1").trace =
        [searchRequest, createRequest "2024-01-01 00:00:00" "nas" "home.lan" "10.0.0.1",
          reconfigureRequest] ∧
      (updateDNSForHostname emptyObjectWorld asciiTable () "nas" "home.lan" "10.0.0.1").val =
        .created "10.0.0.1" :=
  ⟨rfl, rfl, rfl⟩

/-- C8 as amended: let the search be answered with status 200 and the body `body`.  If the
body does not unmarshal into a `SearchResponse`, `GetExistingDNSRecord` returns an error,
`updateDNSForHostname` returns an error and has issued the lookup only.  That is the case for
a body that is not JSON, for a top-level array, string, number or boolean, and for an object
with a `rows` member that is neither an array nor `null`.  If the body is an object none of
whose members is decoded into `Rows` and it unmarshals, the row list is empty and
`GetExistingDNSRecord` returns "no record" without error; the empty object is such a body. -/
theorem GetExistingDNSRecord_malformed {σ : Type} (w : World σ) (ct : CaseTable) (s : σ)
    (hostname domain ip : String) (body : Option Json)
    (hreply : (w.answer s searchRequest).1 = .response 200 body) :
    (unmarshalSearchResponse ct body = none →
        (GetExistingDNSRecord w ct s hostname domain).val =
          .error (.wrap "failed to parse DNS records response" .parse) ∧
        (∃ e, (updateDNSForHostname w ct s hostname domain ip).val = .failed e) ∧
        (updateDNSForHostname w ct s hostname domain ip).trace = [searchRequest]) ∧
      (body = none → unmarshalSearchResponse ct body = none) ∧
      (∀ v, body = some v → (∀ members, v ≠ .obj members) → v ≠ .null →
        unmarshalSearchResponse ct body = none) ∧
      (∀ members k v, body = some (.obj members) → (k, v) ∈ members →
        selectsRows ct k = true → isListOrNull v = false →
        unmarshalSearchResponse ct body = none) ∧
      (∀ members sr, body = some (.obj members) →
        (∀ kv ∈ members, selectsRows ct kv.1 = false) →
        unmarshalSearchResponse ct body = some sr →
        (GetExistingDNSRecord w ct s hostname domain).val = .ok none) ∧
      selectsRows ct "rows" = true ∧
      unmarshalSearchResponse ct (some (.obj [])) = some {} := by
  refine ⟨?_, ?_, ?_, ?_, ?_, rfl, rfl⟩
  · intro hnone
    have hval : (GetExistingDNSRecord w ct s hostname domain).val =
        .error (.wrap "failed to parse DNS records response" .parse) := by
      rw [GetExistingDNSRecord_val w ct s hostname domain body hreply, hnone]
    refine ⟨hval, ?_⟩
    rw [updateDNSForHostname_of_error w ct s hostname domain ip _ hval]
    exact ⟨⟨_, rfl⟩, rfl⟩
  · intro hb
    subst hb
    rfl
  · intro v hb hobj hnull
    subst hb
    cases v with
    | null => exact absurd rfl hnull
    | obj members => exact absurd rfl (hobj members)
    | bool b => rfl
    | num n => rfl
    | str t => rfl
    | arr items => rfl
  · intro members k v hb hmem hk hv
    subst hb
    exact decodeMembers_none_of_mem (SearchResponse.setField ct) k v
      (fun r => SearchResponse.setField_rows_bad ct r k v hk hv) members hmem {}
  · intro members sr hb hno hsr
    rw [GetExistingDNSRecord_val w ct s hostname domain body hreply, hsr]
    subst hb
    have hrows : sr.Rows = [] := decodeMembers_rows_untouched ct members hno {} sr hsr
    simp [hrows, scanRows]

/-- Witness of C8 as amended: the search is answered with a bare JSON string. -/
theorem GetExistingDNSRecord_malformed_witness :
    (GetExistingDNSRecord
        (⟨fun s _ => (.response 200 (some (.str "oops")), s), fun _ => "", fun path => path⟩ :
          World Unit)
        asciiTable () "nas" "home.lan").val =
        .error (.wrap "failed to parse DNS records response" .parse) ∧
      (updateDNSForHostname
        (⟨fun s _ => (.response 200 (some (.str "oops")), s), fun _ => "", fun path => path⟩ :
          World Unit)
        asciiTable () "nas" "home.lan" "10.0.0.1").trace = [searchRequest] :=
  have h := (GetExistingDNSRecord_malformed
    (⟨fun s _ => (.response 200 (some (.str "oops")), s), fun _ => "", fun path => path⟩ :
          World Unit)
    asciiTable () "nas" "home.lan" "10.0.0.1" (some (.str "oops")) rfl).1 rfl
  ⟨h.1, h.2.2⟩

/-! ### The store's answers -/

theorem storeAnswer_search (p : StorePolicy) (rows : List HostOverride) :
    storeAnswer p rows searchRequest = (.response 200 (some (searchBody rows)), rows) := rfl

theorem rowOfPayload_create (uuid now hostname domain ip : String) :
    rowOfPayload uuid (some (createHostPayload now hostname domain ip "")) =
      some ⟨uuid, hostname, domain, ip, "Auto-updated by opnsense-auto-dns at " ++ now, "1"⟩ :=
  rfl

theorem CreateDNSRecord_trace_head {σ : Type} (w : World σ) (ct : CaseTable) (s : σ)
    (hostname domain ip : String) :
    ∃ rest, (CreateDNSRecord w ct s hostname domain ip).trace =
      createRequest (w.now s) hostname domain ip :: rest := by
  rw [(CreateDNSRecord_eq w ct s hostname domain ip).1]
  split
  · exact ⟨_, rfl⟩
  · exact ⟨_, rfl⟩

theorem UpdateDNSRecord_trace_head {σ : Type} (w : World σ) (ct : CaseTable) (s : σ)
    (record : HostOverride) (hostname domain ip target : String)
    (htarget : requestTarget w ("/api/unbound/settings/setHostOverride/" ++ record.UUID) =
      some target) :
    ∃ rest, (UpdateDNSRecord w ct s record hostname domain ip).trace =
      ⟨"POST", target, some (createHostPayload (w.now s) hostname domain ip "1")⟩ :: rest := by
  rw [(UpdateDNSRecord_sent w ct s record hostname domain ip target htarget).1]
  split
  · exact ⟨_, rfl⟩
  · exact ⟨_, rfl⟩

/-- C11: the payload built by `createHostPayload` is an object with the single key `host`;
the value under `host` carries `hostname`, `domain` and `server` equal to the given hostname,
domain and IP, `rr` equal to "A" and a description (a fixed text followed by the time
stamp); it has the key `enabled`, with the given value, exactly when the `enabled` argument
is not empty, and no further key.  The first request of `CreateDNSRecord` carries this
payload without `enabled`, the first request of `UpdateDNSRecord` carries it with `enabled`
equal to "1"; that request goes to the request target the HTTP client derives from
`/api/unbound/settings/setHostOverride/` followed by the UUID (the same string when the UUID
consists of unreserved characters), and `UpdateDNSRecord` sends nothing at all when that URL
is invalid. -/
theorem createHostPayload_shape {σ : Type} (w : World σ) (ct : CaseTable) (s : σ)
    (record : HostOverride) (now hostname domain ip enabled : String) :
    (∃ host, createHostPayload now hostname domain ip enabled = .obj [("host", host)] ∧
      host.member "hostname" = some (.str hostname) ∧
      host.member "domain" = some (.str domain) ∧
      host.member "server" = some (.str ip) ∧
      host.member "rr" = some (.str "A") ∧
      host.member "description" = some (.str ("Auto-updated by opnsense-auto-dns at " ++ now)) ∧
      host.member "enabled" = (if enabled = "" then none else some (.str enabled)) ∧
      host.keys =
        (if enabled = "" then ["hostname", "domain", "rr", "server", "description"]
        else ["hostname", "domain", "rr", "server", "description", "enabled"])) ∧
    (∃ rest, (CreateDNSRecord w ct s hostname domain ip).trace =
      ⟨"POST", "/api/unbound/settings/addHostOverride",
        some (createHostPayload (w.now s) hostname domain ip "")⟩ :: rest) ∧
    (match requestTarget w ("/api/unbound/settings/setHostOverride/" ++ record.UUID) with
      | none => (UpdateDNSRecord w ct s record hostname domain ip).trace = []
      | some target =>
        ∃ rest, (UpdateDNSRecord w ct s record hostname domain ip).trace =
          ⟨"POST", target, some (createHostPayload (w.now s) hostname domain ip "1")⟩ :: rest) ∧
    (record.UUID.data.all isUnreserved = true →
      ∃ rest, (UpdateDNSRecord w ct s record hostname domain ip).trace =
        ⟨"POST", "/api/unbound/settings/setHostOverride/" ++ record.UUID,
          some (createHostPayload (w.now s) hostname domain ip "1")⟩ :: rest) ∧
    ((createHostPayload now hostname domain ip "").member "host").bind
        (fun host => host.member "enabled") = none ∧
    ((createHostPayload now hostname domain ip "1").member "host").bind
        (fun host => host.member "enabled") = some (.str "1") := by
  refine ⟨?_, CreateDNSRecord_trace_head w ct s hostname domain ip, ?_,
    fun hplain => UpdateDNSRecord_trace_head w ct s record hostname domain ip _
      (requestTarget_setHostOverride w record.UUID hplain), rfl, rfl⟩
  swap
  · split
    · rename_i h
      rw [UpdateDNSRecord_unsent w ct s record hostname domain ip h]
    · rename_i target h
      exact UpdateDNSRecord_trace_head w ct s record hostname domain ip target h
  by_cases he : enabled = ""
  · subst he
    exact ⟨_, rfl, rfl, rfl, rfl, rfl, rfl, rfl, rfl⟩
  · refine ⟨.obj [("hostname", .str hostname), ("domain", .str domain), ("rr", .str "A"),
      ("server", .str ip), ("description", .str ("Auto-updated by opnsense-auto-dns at " ++ now)),
      ("enabled", .str enabled)], ?_, rfl, rfl, rfl, rfl, rfl, ?_, ?_⟩
    · simp [createHostPayload, he]
    · rw [if_neg he]
      rfl
    · rw [if_neg he]
      rfl

/-! ### Configuration precedence -/

theorem applyFlags_eq (f : Flags) (file : Config) :
    applyFlags f file =
      ⟨if f.opnsenseHost ≠ "" then f.opnsenseHost else file.OPNsenseHost,
        if f.opnsenseAPIKey ≠ "" then f.opnsenseAPIKey else file.OPNsenseAPIKey,
        if f.opnsenseAPISecret ≠ "" then f.opnsenseAPISecret else file.OPNsenseAPISecret,
        if f.domain ≠ "" then f.domain else file.Domain,
        if f.hostnames.length > 0 then f.hostnames else file.Hostnames,
        if f.ipAddress ≠ "" then f.ipAddress else file.IPAddress⟩ := by
  unfold applyFlags
  by_cases h1 : f.opnsenseHost = "" <;> by_cases h2 : f.opnsenseAPIKey = "" <;>
    by_cases h3 : f.opnsenseAPISecret = "" <;> by_cases h4 : f.domain = "" <;>
    by_cases h5 : f.ipAddress = "" <;> by_cases h6 : f.hostnames.length > 0 <;>
    simp [h1, h2, h3, h4, h5, h6]

theorem applyEnv_eq (getenv : String → String) (c : Config) :
    applyEnv getenv c =
      ⟨if getenv "OPNSENSE_HOST" ≠ "" then getenv "OPNSENSE_HOST" else c.OPNsenseHost,
        if getenv "OPNSENSE_API_KEY" ≠ "" then getenv "OPNSENSE_API_KEY" else c.OPNsenseAPIKey,
        if getenv "OPNSENSE_API_SECRET" ≠ "" then getenv "OPNSENSE_API_SECRET"
        else c.OPNsenseAPISecret,
        if getenv "DOMAIN" ≠ "" then getenv "DOMAIN" else c.Domain,
        if getenv "HOSTNAMES" ≠ "" then splitComma (getenv "HOSTNAMES").data [] else c.Hostnames,
        if getenv "IP_ADDRESS" ≠ "" then getenv "IP_ADDRESS" else c.IPAddress⟩ := by
  unfold applyEnv
  by_cases h1 : getenv "OPNSENSE_HOST" = "" <;> by_cases h2 : getenv "OPNSENSE_API_KEY" = "" <;>
    by_cases h3 : getenv "OPNSENSE_API_SECRET" = "" <;> by_cases h4 : getenv "DOMAIN" = "" <;>
    by_cases h5 : getenv "HOSTNAMES" = "" <;> by_cases h6 : getenv "IP_ADDRESS" = "" <;>
    simp [h1, h2, h3, h4, h5, h6]

theorem applyEnv_applyFlags (a : Startup) (file : Config) :
    applyEnv a.getenv (applyFlags a.flags file) = effectiveConfig a file := by
  rw [applyFlags_eq, applyEnv_eq]
  have hl : (a.flags.hostnames.length > 0) ↔ a.flags.hostnames ≠ [] := by
    cases a.flags.hostnames <;> simp
  simp only [effectiveConfig, pick, pickHostnames, hl]

theorem splitComma_ne_nil (cs piece : List Char) : splitComma cs piece ≠ [] := by
  induction cs generalizing piece with
  | nil => simp [splitComma]
  | cons c cs ih =>
    unfold splitComma
    split
    · simp
    · exact ih _

theorem splitComma_intercalate (cs piece : List Char) :
    List.intercalate [','] ((splitComma cs piece).map String.data) = piece.reverse ++ cs := by
  induction cs generalizing piece with
  | nil => simp [splitComma, List.intercalate]
  | cons c cs ih =>
    unfold splitComma
    by_cases hc : c = ','
    · subst hc
      rw [if_pos rfl]
      have hrest := ih []
      cases hs : splitComma cs [] with
      | nil => exact absurd hs (splitComma_ne_nil cs [])
      | cons x xs =>
        rw [hs] at hrest
        simp only [List.intercalate, List.map_cons, List.intersperse_cons₂, List.flatten_cons,
          List.reverse_nil, List.nil_append] at hrest ⊢
        rw [hrest]
        simp
    · rw [if_neg hc, ih]
      simp

theorem splitComma_no_comma (cs piece : List Char) (hpiece : ',' ∉ piece) :
    ∀ p ∈ splitComma cs piece, ',' ∉ p.data := by
  induction cs generalizing piece with
  | nil =>
    intro p hp
    simp only [splitComma, List.mem_singleton] at hp
    subst hp
    simpa using hpiece
  | cons c cs ih =>
    intro p hp
    unfold splitComma at hp
    by_cases hc : c = ','
    · rw [if_pos hc] at hp
      rcases List.mem_cons.1 hp with h | h
      · subst h
        simpa using hpiece
      · exact ih [] (by simp) p h
    · rw [if_neg hc] at hp
      refine ih (c :: piece) ?_ p hp
      intro hmem
      rcases List.mem_cons.1 hmem with h | h
      · exact hc h.symm
      · exact hpiece h

theorem decodeStrings_str (l : List String) :
    decodeStrings (l.map (fun h => Json.str h)) [] = some l := by
  induction l with
  | nil => rfl
  | cons h t ih =>
    simp only [List.map_cons, decodeStrings, assignString, List.tail_nil, ih]

theorem unmarshalConfig_encodeConfig (ct : CaseTable) (config : Config) :
    unmarshalConfig ct (some (encodeConfig config)) = some config := by
  obtain ⟨host, key, secret, domain, hostnames, ip⟩ := config
  cases hostnames with
  | nil => rfl
  | cons h t =>
    have e0 : ∀ c : Config × List String, Config.setField ct c "opnsense_host" (.str host) =
        some ({ c.1 with OPNsenseHost := host }, c.2) := fun _ => rfl
    have e1 : ∀ c : Config × List String, Config.setField ct c "opnsense_api_key" (.str key) =
        some ({ c.1 with OPNsenseAPIKey := key }, c.2) := fun _ => rfl
    have e2 : ∀ c : Config × List String,
        Config.setField ct c "opnsense_api_secret" (.str secret) =
          some ({ c.1 with OPNsenseAPISecret := secret }, c.2) := fun _ => rfl
    have e3 : ∀ c : Config × List String, Config.setField ct c "domain" (.str domain) =
        some ({ c.1 with Domain := domain }, c.2) := fun _ => rfl
    have e4 : ∀ c : Config × List String, Config.setField ct c "hostnames"
        (.arr ((h :: t).map (fun x => Json.str x))) =
        (decodeStrings ((h :: t).map (fun x => Json.str x)) (c.1.Hostnames ++ c.2)).map
          (fun hs => ({ c.1 with Hostnames := hs },
            (c.1.Hostnames ++ c.2).drop ((h :: t).map (fun x => Json.str x)).length)) :=
      fun _ => rfl
    have e5 : ∀ c : Config × List String, Config.setField ct c "ip_address" (.str ip) =
        some ({ c.1 with IPAddress := ip }, c.2) := fun _ => rfl
    unfold unmarshalConfig encodeConfig
    simp only [decodeMembers, e0, e1, e2, e3, e4, e5, List.append_nil, decodeStrings_str,
      Option.map_some']

/-- C12: `loadConfig` and the precedence of environment over flags over config file.
When a config file is named and cannot be read, or its content does not unmarshal into
`Config`, `loadConfig` ends fatally.  Otherwise let `file` be the config file's value: the
empty configuration when no file is named, else the unmarshalled content of the file read
from the named path.  Then `loadConfig` returns exactly the configuration in which host, API
key, API secret, domain and IP address are the value of the environment variable if that is
not empty, otherwise the flag if that is not empty, otherwise the value of `file`, and the
hostnames are the pieces of `HOSTNAMES` between its commas if the variable is not empty,
otherwise the flag list if it is not empty, otherwise the list of `file`; and it ends fatally
instead exactly when the host, API key, API secret or domain so obtained is empty.
Unmarshalling reads back every field of a config file that spells them out, and fails for
content that is not JSON, for a field of the wrong kind and for a top-level array. -/
theorem loadConfig_precedence (ct : CaseTable) (a : Startup) :
    (a.flags.configFile ≠ "" →
      (∀ cause, a.readFile a.flags.configFile = .error cause →
        loadConfig ct a = .error "Error reading config file") ∧
      (∀ data, a.readFile a.flags.configFile = .ok data → unmarshalConfig ct data = none →
        loadConfig ct a = .error "Error parsing config")) ∧
    (∀ file : Config,
      (a.flags.configFile = "" ∧ file = {} ∨
        a.flags.configFile ≠ "" ∧
          ∃ data, a.readFile a.flags.configFile = .ok data ∧
            unmarshalConfig ct data = some file) →
      ((∃ msg, loadConfig ct a = .error msg) ↔
          (effectiveConfig a file).OPNsenseHost = "" ∨
            (effectiveConfig a file).OPNsenseAPIKey = "" ∨
            (effectiveConfig a file).OPNsenseAPISecret = "" ∨
            (effectiveConfig a file).Domain = "") ∧
        (loadConfig ct a = .ok (effectiveConfig a file) ↔
          (effectiveConfig a file).OPNsenseHost ≠ "" ∧
            (effectiveConfig a file).OPNsenseAPIKey ≠ "" ∧
            (effectiveConfig a file).OPNsenseAPISecret ≠ "" ∧
            (effectiveConfig a file).Domain ≠ "") ∧
        (∀ config, loadConfig ct a = .ok config → config = effectiveConfig a file) ∧
        (effectiveConfig a file).OPNsenseHost =
          (if a.getenv "OPNSENSE_HOST" ≠ "" then a.getenv "OPNSENSE_HOST"
          else if a.flags.opnsenseHost ≠ "" then a.flags.opnsenseHost else file.OPNsenseHost) ∧
        (effectiveConfig a file).OPNsenseAPIKey =
          (if a.getenv "OPNSENSE_API_KEY" ≠ "" then a.getenv "OPNSENSE_API_KEY"
          else if a.flags.opnsenseAPIKey ≠ "" then a.flags.opnsenseAPIKey
          else file.OPNsenseAPIKey) ∧
        (effectiveConfig a file).OPNsenseAPISecret =
          (if a.getenv "OPNSENSE_API_SECRET" ≠ "" then a.getenv "OPNSENSE_API_SECRET"
          else if a.flags.opnsenseAPISecret ≠ "" then a.flags.opnsenseAPISecret
          else file.OPNsenseAPISecret) ∧
        (effectiveConfig a file).Domain =
          (if a.getenv "DOMAIN" ≠ "" then a.getenv "DOMAIN"
          else if a.flags.domain ≠ "" then a.flags.domain else file.Domain) ∧
        (effectiveConfig a file).IPAddress =
          (if a.getenv "IP_ADDRESS" ≠ "" then a.getenv "IP_ADDRESS"
          else if a.flags.ipAddress ≠ "" then a.flags.ipAddress else file.IPAddress) ∧
        (effectiveConfig a file).Hostnames =
          (if a.getenv "HOSTNAMES" ≠ "" then splitComma (a.getenv "HOSTNAMES").data []
          else if a.flags.hostnames ≠ [] then a.flags.hostnames else file.Hostnames)) ∧
    ((∀ config : Config, unmarshalConfig ct (some (encodeConfig config)) = some config) ∧
      unmarshalConfig ct none = none ∧
      (∀ items, unmarshalConfig ct (some (.arr items)) = none) ∧
      (∀ n, unmarshalConfig ct (some (.obj [("domain", .num n)])) = none) ∧
      (∀ t, unmarshalConfig ct (some (.obj [("hostnames", .str t)])) = none) ∧
      unmarshalConfig ct (some (.obj [])) = some {}) ∧
    (∀ v : String,
      List.intercalate [','] ((splitComma v.data []).map String.data) = v.data ∧
        ∀ p ∈ splitComma v.data [], ',' ∉ p.data) := by
  refine ⟨?_, ?_, ?_, ?_⟩
  · intro hnamed
    refine ⟨?_, ?_⟩
    · intro cause hread
      simp [loadConfig, readConfigFile, hnamed, hread]
    · intro data hread hdec
      simp [loadConfig, readConfigFile, hnamed, hread, hdec]
  · intro file hfile
    have hread : readConfigFile ct a = .ok file := by
      rcases hfile with ⟨hno, hempty⟩ | ⟨hnamed, data, hread, hdec⟩
      · subst hempty
        simp [readConfigFile, hno]
      · simp [readConfigFile, hnamed, hread, hdec]
    have hload : loadConfig ct a = checkRequired (effectiveConfig a file) := by
      simp [loadConfig, hread, applyEnv_applyFlags]
    simp only [hload]
    refine ⟨?_, ?_, ?_, rfl, rfl, rfl, rfl, rfl, rfl⟩
    · unfold checkRequired
      by_cases h1 : (effectiveConfig a file).OPNsenseHost = "" <;>
        by_cases h2 : (effectiveConfig a file).OPNsenseAPIKey = "" <;>
        by_cases h3 : (effectiveConfig a file).OPNsenseAPISecret = "" <;>
        by_cases h4 : (effectiveConfig a file).Domain = "" <;>
        simp [h1, h2, h3, h4]
    · unfold checkRequired
      by_cases h1 : (effectiveConfig a file).OPNsenseHost = "" <;>
        by_cases h2 : (effectiveConfig a file).OPNsenseAPIKey = "" <;>
        by_cases h3 : (effectiveConfig a file).OPNsenseAPISecret = "" <;>
        by_cases h4 : (effectiveConfig a file).Domain = "" <;>
        simp [h1, h2, h3, h4]
    · intro config
      unfold checkRequired
      by_cases h1 : (effectiveConfig a file).OPNsenseHost = "" <;>
        by_cases h2 : (effectiveConfig a file).OPNsenseAPIKey = "" <;>
        by_cases h3 : (effectiveConfig a file).OPNsenseAPISecret = "" <;>
        by_cases h4 : (effectiveConfig a file).Domain = "" <;>
        simp [h1, h2, h3, h4]
      intro h
      exact h.symm
  · exact ⟨unmarshalConfig_encodeConfig ct, rfl, fun _ => rfl, fun _ => rfl, fun _ => rfl, rfl⟩
  · intro v
    exact ⟨by simpa using splitComma_intercalate v.data [],
      splitComma_no_comma v.data [] (by simp)⟩

/-- Witness of C12: the file `config.json` holds the host "file-host", the key "file-key", the
secret "file-secret", the domain "home.lan" and the hostname "file-a"; the flags name the
host "flag-host" and the hostname "flag-a"; the environment sets the API key "env-key" and
`HOSTNAMES` to "a,b".  The host comes from the flag, the key and the hostnames from the
environment, the secret and the domain from the file.  A named file that cannot be read is
fatal even when the flags supply every required field. -/
theorem loadConfig_precedence_witness :
    loadConfig asciiTable
        ⟨⟨"config.json", "flag-host", "", "", "", "", ["flag-a"]⟩,
          fun name =>
            if name = "OPNSENSE_API_KEY" then "env-key"
            else if name = "HOSTNAMES" then "a,b" else "",
          fun path =>
            if path = "config.json" then
              .ok (some (encodeConfig
                ⟨"file-host", "file-key", "file-secret", "home.lan", ["file-a"], ""⟩))
            else .error "no such file"⟩ =
      .ok ⟨"flag-host", "env-key", "file-secret", "home.lan", ["a", "b"], ""⟩ ∧
    loadConfig asciiTable
        ⟨⟨"missing.json", "flag-host", "flag-key", "flag-secret", "home.lan", "", []⟩,
          fun _ => "", fun _ => .error "no such file"⟩ =
      .error "Error reading config file" :=
  ⟨((loadConfig_precedence asciiTable
      ⟨⟨"config.json", "flag-host", "", "", "", "", ["flag-a"]⟩,
        fun name =>
          if name = "OPNSENSE_API_KEY" then "env-key"
          else if name = "HOSTNAMES" then "a,b" else "",
        fun path =>
          if path = "config.json" then
            .ok (some (encodeConfig
              ⟨"file-host", "file-key", "file-secret", "home.lan", ["file-a"], ""⟩))
          else .error "no such file"⟩).2.1
    ⟨"file-host", "file-key", "file-secret", "home.lan", ["file-a"], ""⟩
    (Or.inr ⟨by decide, _, rfl, rfl⟩)).2.1.2
    ⟨by decide, by decide, by decide, by decide⟩,
    ((loadConfig_precedence asciiTable
      ⟨⟨"missing.json", "flag-host", "flag-key", "flag-secret", "home.lan", "", []⟩,
        fun _ => "", fun _ => .error "no such file"⟩).1 (by decide)).1 "no such file" rfl⟩

theorem loadConfig_sample :
    loadConfig asciiTable
        ⟨⟨"config.json", "flag-host", "", "", "", "", ["flag-a"]⟩,
          fun name =>
            if name = "OPNSENSE_API_KEY" then "env-key"
            else if name = "HOSTNAMES" then "a,b" else "",
          fun _ => .ok (some (.obj [("opnsense_host", .str "file-host"),
            ("opnsense_api_key", .str "file-key"), ("opnsense_api_secret", .str "file-secret"),
            ("domain", .str "home.lan"), ("hostnames", .arr [.str "file-a"])]))⟩ =
      .ok ⟨"flag-host", "env-key", "file-secret", "home.lan", ["a", "b"], ""⟩ ∧
    loadConfig asciiTable
        ⟨⟨"", "flag-host", "flag-key", "flag-secret", "", "", []⟩, fun _ => "",
          fun _ => .error "no such file"⟩ =
      .error "domain is required" :=
  ⟨rfl, rfl⟩

end OpnsenseAutoDns
